import Mathlib

/-!
# Transaction system: embedding and verified properties

A shallow embedding of the Go packages `models`, `repositories`, `services` and
`controllers` of the transaction system, followed by theorems about them.

Conventions of the embedding
* Go `uint` ids are natural numbers; no arithmetic is performed on them.
* A Go `float64` value is the rational number it denotes; where the program rounds (a
  JSON number when it is decoded, a sum when the database adds two `float8` values) the
  rounding to the nearest `float64` is `nearestFloat64`.
* A Go `error` is a value of `Error`; `nil` is `none`.
* Methods of an interface become functions that take the state of the store and
  return the state they leave behind.
-/

namespace TransactionSystem

/-! ## models -/

/-- Transaction represents the transactions table schema (`models.Transaction`).
The Go field `Type` is spelled `Type_` because `Type` is reserved. The struct tags
`validate:"notblank"` on `Amount` and `Type` are annotations: no function of the
program reads them. -/
structure Transaction where
  Id : Nat
  Amount : ℚ
  Type_ : String
  ParentID : Option Nat
deriving DecidableEq

/-! ## errors -/

/-- Go error values that occur in the program: the three sentinel errors declared in
`services` and `repositories`, `gorm.ErrRecordNotFound`, a `*pq.Error` carrying its
SQLSTATE code and its message, and any other error (identified by its message). -/
inductive Error where
  | ErrParentTransactionNotFound
  | ErrTransactionNotFound
  | ErrTransactionAlreadyExist
  | ErrRecordNotFound
  | pqError (code : String) (message : String)
  | other (msg : String)
deriving DecidableEq

/-- Text of `err.Error()`: the `errors.New` messages of the sentinel errors, and for a
`*pq.Error` its message behind "pq: ". -/
def Error.message : Error → String
  | .ErrParentTransactionNotFound => "parent transaction does not exist"
  | .ErrTransactionNotFound => "transaction does not exist for given transaction ID"
  | .ErrTransactionAlreadyExist => "transaction with the same ID already exists"
  | .ErrRecordNotFound => "record not found"
  | .pqError _ message => "pq: " ++ message
  | .other msg => msg

/-! ## float64 -/

/-- The fraction `num / den` rounded to the nearest integer, a tie going to the even
one. -/
def roundHalfEven (num den : Nat) : Nat :=
  let n := num / den
  let r := num % den
  if 2 * r < den then n
  else if den < 2 * r then n + 1
  else if n % 2 = 0 then n else n + 1

/-- Number of binary digits of `n`, counted with at most `fuel` halvings. -/
def bitLength : Nat → Nat → Nat
  | 0, _ => 0
  | fuel + 1, n => if n = 0 then 0 else bitLength fuel (n / 2) + 1

/-- The largest `e` with `2 ^ e ≤ p / q`, for positive `p` and `q`. -/
def floorLog2 (p q : Nat) : Int :=
  let e : Int := (bitLength p p : Int) - (bitLength q q : Int)
  if q * 2 ^ e.toNat ≤ p * 2 ^ (-e).toNat then e else e - 1

/-- The exponent of the last place of the `float64` nearest to `p / q`: 52 places below
the leading bit, and never below `-1074` (subnormal numbers). -/
def float64Scale (p q : Nat) : Int :=
  if floorLog2 p q < -1022 then -1074 else floorLog2 p q - 52

/-- The `float64` nearest to the positive fraction `p / q` (round to nearest, ties to
even), without the overflow to infinity: a value of `2 ^ 1024` or more stands for it. -/
def nearestFloat64Pos (p q : Nat) : ℚ :=
  let s : Int := float64Scale p q
  let n := roundHalfEven (p * 2 ^ (-s).toNat) (q * 2 ^ s.toNat)
  mkRat (Int.ofNat (n * 2 ^ s.toNat)) (2 ^ (-s).toNat)

/-- The `float64` nearest to `x` (round to nearest, ties to even), as IEEE 754 addition
and `strconv.ParseFloat` produce it; a result of absolute value `2 ^ 1024` or more
stands for an infinity. -/
def nearestFloat64 (x : ℚ) : ℚ :=
  if 0 < x.num then nearestFloat64Pos x.num.toNat x.den
  else if x.num < 0 then -nearestFloat64Pos (-x.num).toNat x.den
  else 0

/-- Modelled from the spec: the addition of two `float8` values in the database
("amounts are summed using floating-point addition"), PostgreSQL's `float8pl`: the
`float64` sum, and the error 22003 "value out of range: overflow" when that sum is
infinite. -/
def float8pl (x y : ℚ) : Except Error ℚ :=
  if nearestFloat64 (x + y) < 2 ^ 1024 ∧ -(2 ^ 1024) < nearestFloat64 (x + y) then
    Except.ok (nearestFloat64 (x + y))
  else Except.error (Error.pqError "22003" "value out of range: overflow")

/-- The aggregate `SUM` continued from the running sum `acc` over the values still to
come, in the order the query yields them. -/
def float8Accumulate : ℚ → List ℚ → Except Error ℚ
  | acc, [] => Except.ok acc
  | acc, x :: rest =>
    match float8pl acc x with
    | Except.ok sum => float8Accumulate sum rest
    | Except.error err => Except.error err

/-- Modelled from the spec: `COALESCE(SUM(amount), 0)` over `float8` values in the order
the query yields them: 0 for no row, the first value for one row, and then the running
`float64` sum. -/
def float8Sum : List ℚ → Except Error ℚ
  | [] => Except.ok 0
  | first :: rest => float8Accumulate first rest

/-! ## the database behind `gorm.DB` -/

/-- Modelled from the spec: the database handle returned by `db.Get()` (package
`app/lib/db`, gorm and the SQL engine are not part of the sources). The store proper is
the table `transactions`, the list `rows`, newest row first. `faults` is the
environment of the store: it scripts the outcome the driver gives to the statements
still to come, `none` letting the statement run and `some e` making it fail with `e`;
an exhausted script means no failure. -/
structure DB where
  rows : List Transaction
  faults : List (Option Error)
deriving DecidableEq

/-- Ids present in the table. -/
def DB.ids (db : DB) : List Nat := db.rows.map (·.Id)

/-- Take the driver outcome of the next statement off the script. -/
def DB.nextFault (db : DB) : Option Error × DB :=
  match db.faults with
  | [] => (none, db)
  | f :: rest => (f, { db with faults := rest })

/-- Modelled from the spec: `Db.Create(transaction).Error`, the store's
`insertIfAbsent`. The insert is atomic: a statement that fails leaves the table as it
was; a row whose id is already present violates the primary key and surfaces as the
`pq` error with code 23505; otherwise the row is added. -/
def dbCreate (t : Transaction) (db : DB) : Option Error × DB :=
  match db.nextFault with
  | (some e, db1) => (some e, db1)
  | (none, db1) =>
    if t.Id ∈ db1.ids then
      (some (Error.pqError "23505"
        "duplicate key value violates unique constraint \"transactions_pkey\""), db1)
    else (none, { db1 with rows := t :: db1.rows })

/-- Modelled from the spec: `Db.Where("id = ?", id).First(&transaction)`, the store's
`getById`. Reads only; no matching row is reported as `gorm.ErrRecordNotFound`. -/
def dbFirstByID (id : Nat) (db : DB) : Except Error Transaction × DB :=
  match db.nextFault with
  | (some e, db1) => (Except.error e, db1)
  | (none, db1) =>
    match db1.rows.find? (fun t => t.Id = id) with
    | some t => (Except.ok t, db1)
    | none => (Except.error Error.ErrRecordNotFound, db1)

/-- Modelled from the spec: `Db.Where("type = ?", transactionType).Find(&transactions)`,
the store's `getByType`. Reads only; no matching row is an empty result, not an error. -/
def dbFindByType (transactionType : String) (db : DB) : Except Error (List Transaction) × DB :=
  match db.nextFault with
  | (some e, db1) => (Except.error e, db1)
  | (none, db1) => (Except.ok (db1.rows.filter (fun t => t.Type_ = transactionType)), db1)

/-! ### the recursive query of `GetTransitiveSum`

```
WITH RECURSIVE TransactionsCTE AS (
  SELECT id, amount FROM transactions WHERE id = %d
  UNION ALL
  SELECT t.id, t.amount FROM transactions t
  JOIN TransactionsCTE ON t.parent_id = TransactionsCTE.id )
SELECT COALESCE(SUM(amount), 0) AS total_amount FROM TransactionsCTE where id != %d;
```
-/

/-- A row of `TransactionsCTE`: the columns `id` and `amount`. -/
abbrev CTERow := Nat × ℚ

/-- The non-recursive term: `SELECT id, amount FROM transactions WHERE id = root`. -/
def cteBase (rows : List Transaction) (root : Nat) : List CTERow :=
  (rows.filter (fun t => t.Id = root)).map (fun t => (t.Id, t.Amount))

/-- The recursive term evaluated against the working table `work`:
`SELECT t.id, t.amount FROM transactions t JOIN work ON t.parent_id = work.id`.
One output row per matching pair (`UNION ALL` keeps duplicates); a NULL `parent_id`
matches nothing. -/
def cteStep (rows : List Transaction) (work : List CTERow) : List CTERow :=
  rows.flatMap (fun t =>
    (work.filter (fun w => t.ParentID = some w.1)).map (fun _ => (t.Id, t.Amount)))

/-- Evaluation of `WITH RECURSIVE`: the working table is added to the result and
replaced by the recursive term applied to it, until the working table is empty.
`fuel` bounds the number of iterations; `none` means the iteration did not reach an
empty working table within `fuel` rounds (on a cyclic table it never does). -/
def recursiveCTE : Nat → List Transaction → List CTERow → Option (List CTERow)
  | 0, _, _ => none
  | fuel + 1, rows, work =>
    if work = [] then some []
    else (recursiveCTE fuel rows (cteStep rows work)).map (fun rest => work ++ rest)

/-- The outer select: `COALESCE(SUM(amount), 0)` over the rows with `id != root`, the
amounts being added as `float8` values in the order of the result; an overflow of the
sum is the error of the statement. -/
def cteTotal (root : Nat) (result : List CTERow) : Except Error ℚ :=
  float8Sum ((result.filter (fun r => r.1 ≠ root)).map (·.2))

/-- Modelled from the spec: `Db.Raw(query).Row().Scan(&totalAmount)` for the query
above, the store's `sumDescendants`. Reads only. `none` means the query does not
return within `fuel` iterations. -/
def dbTransitiveSumQuery (fuel : Nat) (transactionID : Nat) (db : DB) :
    Option (Except Error ℚ × DB) :=
  match db.nextFault with
  | (some e, db1) => some (Except.error e, db1)
  | (none, db1) =>
    (recursiveCTE fuel db1.rows (cteBase db1.rows transactionID)).map
      (fun result => (cteTotal transactionID result, db1))

/-! ## repositories -/

namespace repositories

/-- DuplicateKeyViolationCode: PostgreSQL error code 23505 corresponds to a
unique_violation (duplicate key). -/
def DuplicateKeyViolationCode : String := "23505"

/-- The interface `TransactionRepositoryI`, over a store state `σ`. A Go result pair
`(value, error)` is a pair whose second component is the error. `GetTransitiveSum`
returns `none` when the call does not return. -/
structure TransactionRepositoryI (σ : Type) where
  Create : Transaction → σ → Option Error × σ
  GetByID : Nat → σ → (Option Transaction × Option Error) × σ
  GetByType : String → σ → (List Transaction × Option Error) × σ
  GetTransitiveSum : Nat → σ → Option ((ℚ × Option Error) × σ)

/-- Create inserts a new transaction into the database. -/
def Create (transaction : Transaction) (db : DB) : Option Error × DB :=
  match dbCreate transaction db with
  | (some err, db1) =>
    match err with
    | Error.pqError code _ =>
      if code = DuplicateKeyViolationCode then (some Error.ErrTransactionAlreadyExist, db1)
      else (some err, db1)
    | _ => (some err, db1)
  | (none, db1) => (none, db1)

/-- GetByID retrieves a transaction by its ID from the database. -/
def GetByID (id : Nat) (db : DB) : (Option Transaction × Option Error) × DB :=
  match dbFirstByID id db with
  | (Except.error err, db1) =>
    if err = Error.ErrRecordNotFound then ((none, none), db1)
    else ((none, some err), db1)
  | (Except.ok transaction, db1) => ((some transaction, none), db1)

/-- GetByType retrieves transactions by type from the database. -/
def GetByType (transactionType : String) (db : DB) :
    (List Transaction × Option Error) × DB :=
  match dbFindByType transactionType db with
  | (Except.error err, db1) => (([], some err), db1)
  | (Except.ok transactions, db1) => ((transactions, none), db1)

/-- GetTransitiveSum retrieves the sum of all transactions transitively linked by
their parent_id to a given transaction ID. -/
def GetTransitiveSum (fuel : Nat) (transactionID : Nat) (db : DB) :
    Option ((ℚ × Option Error) × DB) :=
  match dbTransitiveSumQuery fuel transactionID db with
  | none => none
  | some (Except.error err, db1) => some ((0, some err), db1)
  | some (Except.ok totalAmount, db1) => some ((totalAmount, none), db1)

/-- NewTransactionRepository: the repository over the database. `fuel` is the
iteration bound given to the recursive query. -/
def NewTransactionRepository (fuel : Nat) : TransactionRepositoryI DB :=
  { Create := Create
    GetByID := GetByID
    GetByType := GetByType
    GetTransitiveSum := GetTransitiveSum fuel }

/-- A call received by a repository. -/
inductive Call where
  | Create (transaction : Transaction)
  | GetByID (id : Nat)
  | GetByType (transactionType : String)
  | GetTransitiveSum (transactionID : Nat)
deriving DecidableEq

/-- The repository `repo` with a log: every call is appended to the log and then
answered by `repo`. -/
def recording {σ : Type} (repo : TransactionRepositoryI σ) :
    TransactionRepositoryI (σ × List Call) :=
  { Create := fun t s =>
      let r := repo.Create t s.1
      (r.1, (r.2, s.2 ++ [Call.Create t]))
    GetByID := fun id s =>
      let r := repo.GetByID id s.1
      (r.1, (r.2, s.2 ++ [Call.GetByID id]))
    GetByType := fun ty s =>
      let r := repo.GetByType ty s.1
      (r.1, (r.2, s.2 ++ [Call.GetByType ty]))
    GetTransitiveSum := fun id s =>
      (repo.GetTransitiveSum id s.1).map
        (fun r => (r.1, (r.2, s.2 ++ [Call.GetTransitiveSum id]))) }

end repositories

/-! ## services -/

namespace services

open repositories

/-- CreateTransaction creates a new transaction using the provided transaction data. -/
def CreateTransaction {σ : Type} (repo : TransactionRepositoryI σ)
    (transaction : Transaction) (s : σ) : (Bool × Option Error) × σ :=
  let parentCheck : Option Error × σ :=
    match transaction.ParentID with
    | none => (none, s)
    | some parentID =>
      match repo.GetByID parentID s with
      | ((_, some err), s1) => (some err, s1)
      | ((none, none), s1) => (some Error.ErrParentTransactionNotFound, s1)
      | ((some _, none), s1) => (none, s1)
  match parentCheck with
  | (some err, s1) => ((false, some err), s1)
  | (none, s1) =>
    match repo.Create transaction s1 with
    | (some err, s2) => ((false, some err), s2)
    | (none, s2) => ((true, none), s2)

/-- GetTransactionIDsByType retrieves a list of transaction IDs that match the given
transactionType. The loop appends the id of each fetched transaction in turn. -/
def GetTransactionIDsByType {σ : Type} (repo : TransactionRepositoryI σ)
    (transactionType : String) (s : σ) : (List Nat × Option Error) × σ :=
  match repo.GetByType transactionType s with
  | ((_, some err), s1) => (([], some err), s1)
  | ((transactions, none), s1) =>
    ((transactions.foldl (fun transactionIDs transaction => transactionIDs ++ [transaction.Id]) [],
      none), s1)

/-- GetTransitiveSum retrieves the sum of all transactions transitively linked by
their parent_id to a given transaction ID. -/
def GetTransitiveSum {σ : Type} (repo : TransactionRepositoryI σ)
    (transactionID : Nat) (s : σ) : Option ((ℚ × Option Error) × σ) :=
  match repo.GetByID transactionID s with
  | ((_, some err), s1) => some ((0, some err), s1)
  | ((none, none), s1) => some ((0, some Error.ErrTransactionNotFound), s1)
  | ((some _, none), s1) => repo.GetTransitiveSum transactionID s1

/-- The interface `TransactionServiceI`, over a store state `σ`; the handlers of the
controller are written against it. -/
structure TransactionServiceI (σ : Type) where
  CreateTransaction : Transaction → σ → (Bool × Option Error) × σ
  GetTransactionIDsByType : String → σ → (List Nat × Option Error) × σ
  GetTransitiveSum : Nat → σ → Option ((ℚ × Option Error) × σ)

/-- MakeTransactionService: the service over the repository `transactionRepo`. -/
def MakeTransactionService {σ : Type} (transactionRepo : TransactionRepositoryI σ) :
    TransactionServiceI σ :=
  { CreateTransaction := services.CreateTransaction transactionRepo
    GetTransactionIDsByType := services.GetTransactionIDsByType transactionRepo
    GetTransitiveSum := services.GetTransitiveSum transactionRepo }

/-- A call received by a service. -/
inductive ServiceCall where
  | CreateTransaction (transaction : Transaction)
  | GetTransactionIDsByType (transactionType : String)
  | GetTransitiveSum (transactionID : Nat)
deriving DecidableEq

/-- The service `svc` with a log: every call is appended to the log and then answered
by `svc`. -/
def recordingService {σ : Type} (svc : TransactionServiceI σ) :
    TransactionServiceI (σ × List ServiceCall) :=
  { CreateTransaction := fun t s =>
      let r := svc.CreateTransaction t s.1
      (r.1, (r.2, s.2 ++ [ServiceCall.CreateTransaction t]))
    GetTransactionIDsByType := fun ty s =>
      let r := svc.GetTransactionIDsByType ty s.1
      (r.1, (r.2, s.2 ++ [ServiceCall.GetTransactionIDsByType ty]))
    GetTransitiveSum := fun id s =>
      (svc.GetTransitiveSum id s.1).map
        (fun r => (r.1, (r.2, s.2 ++ [ServiceCall.GetTransitiveSum id]))) }

end services

/-! ## controllers -/

namespace controllers

open repositories

/-- Body written to the `http.ResponseWriter`. `errorResponse` is the JSON object
written by `respondWithError`, with keys `success` (always "false"), `error` and
`status`; the other constructors are the JSON objects of the success paths. -/
inductive Body where
  | errorResponse (error : String) (status : Nat)
  | status (status : String)
  | transactionIDs (transaction_ids : List Nat)
  | sum (sum : ℚ)
  | text (msg : String)
deriving DecidableEq

/-- What a handler leaves on the `http.ResponseWriter`: the status code and the body. -/
structure Response where
  statusCode : Nat
  body : Body
deriving DecidableEq

/-- Status codes of `net/http` used by the handlers. -/
def StatusOK : Nat := 200
/-- Status 201 of `net/http`. -/
def StatusCreated : Nat := 201
/-- Status 400 of `net/http`. -/
def StatusBadRequest : Nat := 400
/-- Status 500 of `net/http`. -/
def StatusInternalServerError : Nat := 500

/-- The handler helper respondWithError: the error object, with the status code both
in the header and in the body. -/
def respondWithError (errMsg : String) (statusCode : Nat) : Response :=
  { statusCode := statusCode, body := Body.errorResponse errMsg statusCode }

/-- The call `strconv.ParseUint(s, 10, 64)`: a non-empty string of decimal digits
whose value fits 64 bits; anything else is an error (`none`). The conversion `uint(..)`
that follows it in the handlers is the identity, `uint` being 64 bits wide. -/
def ParseUint (s : String) : Option Nat :=
  if s = "" then none
  else if s.toList.all (fun c => 48 ≤ c.toNat && c.toNat ≤ 57) then
    let n := s.toList.foldl (fun acc c => 10 * acc + (c.toNat - 48)) 0
    if n < 2 ^ 64 then some n else none
  else none

/-- The handler `transactionController.GetTransitiveSum`; `transactionID` is
`params.ByName("transaction_id")`. `none` when the service call does not return. -/
def GetTransitiveSum {σ : Type} (repo : TransactionRepositoryI σ)
    (transactionID : String) (s : σ) : Option (Response × σ) :=
  if transactionID = "" then
    some (respondWithError "Transaction ID is required" StatusBadRequest, s)
  else
    match ParseUint transactionID with
    | none => some (respondWithError "Invalid transaction ID format" StatusBadRequest, s)
    | some transactionIDUint =>
      match services.GetTransitiveSum repo transactionIDUint s with
      | none => none
      | some ((_, some err), s1) =>
        if err = Error.ErrTransactionNotFound then
          some (respondWithError "Transaction does not exist for given transaction ID"
            StatusBadRequest, s1)
        else
          some (respondWithError ("Error retrieving transitive sum: " ++ err.message)
            StatusInternalServerError, s1)
      | some ((sum, none), s1) =>
        some ({ statusCode := StatusOK, body := Body.sum sum }, s1)

/-! ### the create handler -/

/-- A value of Go type `interface{}` as `encoding/json` produces it when it decodes into
`map[string]interface{}`: `nil` for null, `bool`, `float64` for every number, `string`,
`[]interface{}` and `map[string]interface{}`. A number carries the `float64` value it
was decoded to, as an exact rational. -/
inductive JSONValue where
  | null
  | bool (b : Bool)
  | number (f : ℚ)
  | string (s : String)
  | array (items : List JSONValue)
  | object (fields : List (String × JSONValue))

/-- The value that decoding gives to a JSON number whose exact value is `literal`:
`encoding/json` converts the literal with `strconv.ParseFloat`, that is to the nearest
`float64` (for a literal that `float64` can hold without overflow). -/
def decodeNumber (literal : ℚ) : JSONValue := JSONValue.number (nearestFloat64 literal)

/-- A Go `map[string]interface{}` as the list of its key-value pairs in the order they
were set; a later pair with the same key overrides an earlier one. -/
abbrev JSONMap := List (String × JSONValue)

/-- The map index expression `data[key]` with its `exists` flag: the value set last for
`key`, `none` when the key is not in the map. -/
def mapIndex (data : JSONMap) (key : String) : Option JSONValue :=
  (data.reverse.find? (fun kv => kv.1 = key)).map (·.2)

/-- The call `json.NewDecoder(r.Body).Decode(&transactionData)` with `transactionData`
of type `map[string]interface{}`. `body` is the first JSON value of the request body,
`none` when the body does not start with one (empty or malformed body, or a number
that `float64` cannot hold). An object decodes to its map, `null` leaves the map nil
(no key, no error), any other value is a type error. The result `none` is the error. -/
def decodeBody (body : Option JSONValue) : Option JSONMap :=
  match body with
  | none => none
  | some (JSONValue.object fields) => some fields
  | some JSONValue.null => some []
  | some _ => none

/-- The loop of `validateSchema` over the remaining `expectedFields`, `result` being
the map built so far. -/
def validateSchemaLoop (data : JSONMap) : List String → JSONMap → Except Response JSONMap
  | [], result => Except.ok result
  | field :: rest, result =>
    match mapIndex data field with
    | none =>
      Except.error (respondWithError ("Field '" ++ field ++ "' is missing") StatusBadRequest)
    | some val => validateSchemaLoop data rest (result ++ [(field, val)])

/-- The helper validateSchema: the values of the expected fields, or the error response
it wrote for the first expected field that is missing (`nil, false` in the source). -/
def validateSchema (data : JSONMap) (expectedFields : List String) : Except Response JSONMap :=
  validateSchemaLoop data expectedFields []

/-- The value `f` with its fraction discarded (rounding toward zero). -/
def truncate (f : ℚ) : Int :=
  if 0 ≤ f.num then f.num / f.den else -((-f.num) / f.den)

/-- The conversion `uint(parentIDValue)` of a `float64` to `uint`: the fraction is
discarded. Go fixes the result when the truncated value fits 64 bits, that is for
`-1 < f < 2 ^ 64`. Outside that range the language leaves the result to the
implementation; the value taken here is the one of the amd64 compiler: a negative
truncated value that fits a signed 64-bit integer wraps to `2 ^ 64` plus that value,
and every other value gives `2 ^ 63`. -/
def uintOfFloat64 (f : ℚ) : Nat :=
  if -(2 ^ 63) ≤ truncate f ∧ truncate f < 2 ^ 64 then (truncate f % 2 ^ 64).toNat
  else 2 ^ 63

/-- The helper getStatusMessage returns a human-readable status message based on the
transaction creation status. -/
def getStatusMessage (status : Bool) : String :=
  if status then "ok" else "unable to create transaction"

/-- The handler `transactionController.CreateTransaction`; `transactionID` is
`params.ByName("transaction_id")` and `body` the first JSON value of the request body
(see `decodeBody`). -/
def CreateTransaction {σ : Type} (svc : services.TransactionServiceI σ)
    (transactionID : String) (body : Option JSONValue) (s : σ) : Response × σ :=
  if transactionID = "" then
    (respondWithError "Transaction ID is required" StatusBadRequest, s)
  else
    match ParseUint transactionID with
    | none => (respondWithError "Invalid transaction ID format" StatusBadRequest, s)
    | some transactionIDUint =>
      match decodeBody body with
      | none => (respondWithError "Error decoding request body" StatusBadRequest, s)
      | some transactionData =>
        match validateSchema transactionData ["amount", "type"] with
        | Except.error response => (response, s)
        | Except.ok validatedData =>
          match mapIndex validatedData "amount" with
          | some (JSONValue.number amount) =>
            match mapIndex validatedData "type" with
            | some (JSONValue.string transactionType) =>
              let parentID : Except Response (Option Nat) :=
                match mapIndex transactionData "parent_id" with
                | none => Except.ok none
                | some (JSONValue.number parentIDValue) =>
                  Except.ok (some (uintOfFloat64 parentIDValue))
                | some _ =>
                  Except.error (respondWithError "Invalid parent_id format" StatusBadRequest)
              match parentID with
              | Except.error response => (response, s)
              | Except.ok parentID =>
                let newTransaction : Transaction :=
                  { Id := transactionIDUint, Amount := amount, Type_ := transactionType,
                    ParentID := parentID }
                match svc.CreateTransaction newTransaction s with
                | ((_, some err), s1) =>
                  if err = Error.ErrParentTransactionNotFound then
                    (respondWithError "Parent transaction does not exist" StatusBadRequest, s1)
                  else if err = Error.ErrTransactionAlreadyExist then
                    (respondWithError "transaction with the same ID already exists"
                      StatusBadRequest, s1)
                  else
                    (respondWithError ("Error creating transaction: " ++ err.message)
                      StatusInternalServerError, s1)
                | ((status, none), s1) =>
                  ({ statusCode := StatusCreated,
                     body := Body.status (getStatusMessage status) }, s1)
            | _ => (respondWithError "Invalid type format" StatusBadRequest, s)
          | _ => (respondWithError "Invalid amount format" StatusBadRequest, s)

end controllers

/-! ## notions used to state the properties -/

open repositories

/-- The store with table `rows` and no scripted driver failure. -/
def healthy (rows : List Transaction) : DB := { rows := rows, faults := [] }

/-- The store left by calling `services.CreateTransaction` on each candidate of `cs`
in turn, whatever each call returns. -/
def createAll {σ : Type} (repo : TransactionRepositoryI σ) (cs : List Transaction) (s : σ) : σ :=
  cs.foldl (fun st c => (services.CreateTransaction repo c st).2) s

/-- The descendants of `root` in the table `rows`: the rows reachable from `root` by
one or more child edges, a child of a node being a row whose `parent_id` is that
node's id. -/
inductive Descendant (rows : List Transaction) (root : Nat) : Transaction → Prop where
  | child (t : Transaction) : t ∈ rows → t.ParentID = some root → Descendant rows root t
  | step (u t : Transaction) : Descendant rows root u → t ∈ rows →
      t.ParentID = some u.Id → Descendant rows root t

/-- Follow `parent_id` links upwards from `t`, at most `fuel` rows: the ids met, from
`t` up to a row without parent. `none` when a link dangles or no parentless row is
reached within `fuel` rows. -/
def parentChain : Nat → List Transaction → Transaction → Option (List Nat)
  | 0, _, _ => none
  | fuel + 1, rows, t =>
    match t.ParentID with
    | none => some [t.Id]
    | some p =>
      match rows.find? (fun u => u.Id = p) with
      | none => none
      | some u => (parentChain fuel rows u).map (fun chain => t.Id :: chain)

/-- The table shape that creation maintains: ids are unique and the parent of every
row is an older row (further down the list). -/
def CreationOrdered : List Transaction → Prop
  | [] => True
  | t :: rows =>
    t.Id ∉ rows.map (·.Id) ∧ (∀ p, t.ParentID = some p → p ∈ rows.map (·.Id)) ∧
      CreationOrdered rows

/-- Whether `t` reaches the id `root` in exactly `k` parent steps inside `rows`. -/
def reachesIn (rows : List Transaction) (root : Nat) : Nat → Transaction → Bool
  | 0, t => decide (t.Id = root)
  | k + 1, t =>
    match t.ParentID with
    | none => false
    | some p => rows.any (fun u => decide (u.Id = p) && reachesIn rows root k u)

/-- Whether the type assertion `val.(float64)` succeeds. -/
def controllers.JSONValue.isNumber : controllers.JSONValue → Bool
  | controllers.JSONValue.number _ => true
  | _ => false

/-- Whether the type assertion `val.(string)` succeeds. -/
def controllers.JSONValue.isString : controllers.JSONValue → Bool
  | controllers.JSONValue.string _ => true
  | _ => false

/-- The field `key` of the request body: present when the body decodes and the decoded
map has the key. -/
def bodyField (body : Option controllers.JSONValue) (key : String) :
    Option controllers.JSONValue :=
  (controllers.decodeBody body).bind (fun data => controllers.mapIndex data key)

/-- The checks on a create request, in the order in which they are to run, each with
the error message reported when it fails (`true` means the check passes): id present,
id parses as unsigned integer, body decodes, field amount present, field type present,
amount is a number, type is a string, parent_id (if present) is a number. -/
def createChecks (transactionID : String) (body : Option controllers.JSONValue) :
    List (Bool × String) :=
  [ (decide (transactionID ≠ ""), "Transaction ID is required"),
    ((controllers.ParseUint transactionID).isSome, "Invalid transaction ID format"),
    ((controllers.decodeBody body).isSome, "Error decoding request body"),
    ((bodyField body "amount").isSome, "Field 'amount' is missing"),
    ((bodyField body "type").isSome, "Field 'type' is missing"),
    ((bodyField body "amount").any controllers.JSONValue.isNumber, "Invalid amount format"),
    ((bodyField body "type").any controllers.JSONValue.isString, "Invalid type format"),
    ((bodyField body "parent_id").all controllers.JSONValue.isNumber,
      "Invalid parent_id format") ]

/-- The message of the first check of `createChecks` that fails, `none` when all pass. -/
def firstFailure (transactionID : String) (body : Option controllers.JSONValue) :
    Option String :=
  ((createChecks transactionID body).find? (fun check => !check.1)).map (·.2)

/-- The response of the create handler to the result `(status, err)` of the service:
201 with the status message when there is no error, 400 for the two sentinel errors,
500 with the error's message otherwise. -/
def createResponse (status : Bool) : Option Error → controllers.Response
  | none =>
    { statusCode := 201
      body := controllers.Body.status (if status then "ok" else "unable to create transaction") }
  | some err =>
    if err = Error.ErrParentTransactionNotFound then
      { statusCode := 400
        body := controllers.Body.errorResponse "Parent transaction does not exist" 400 }
    else if err = Error.ErrTransactionAlreadyExist then
      { statusCode := 400
        body := controllers.Body.errorResponse
          "transaction with the same ID already exists" 400 }
    else
      { statusCode := 500
        body := controllers.Body.errorResponse
          ("Error creating transaction: " ++ err.message) 500 }

/-- What `repositories.GetTransitiveSum` returns for the outcome of the scanned total:
the total with a nil error, or 0 with the error. -/
def sumOutcome : Except Error ℚ → ℚ × Option Error
  | Except.ok totalAmount => (totalAmount, none)
  | Except.error err => (0, some err)

/-! ## theorems -/

section basic

open services

theorem nextFault_rows (db : DB) : db.nextFault.2.rows = db.rows := by
  unfold DB.nextFault
  cases db.faults <;> rfl

theorem repo_GetByID_rows (id : Nat) (db : DB) : (repositories.GetByID id db).2.rows = db.rows := by
  unfold repositories.GetByID dbFirstByID
  have h := nextFault_rows db
  rcases hf : db.nextFault with ⟨_ | e, db1⟩ <;> rw [hf] at h <;> simp only at h ⊢
  · cases db1.rows.find? (fun t => t.Id = id) <;> simp [h]
  · split <;> simp [h]

end basic

/-! ### creation: parent gating -/

section creation

open services

/-- C1: when the candidate names a parent `p` and `GetByID p` reports it absent (nil
result, nil error), `CreateTransaction` returns `(false, ErrParentTransactionNotFound)`,
the only call the repository receives is `GetByID p` (so `Create` is not invoked), and
the store is left as the lookup left it; on the database the table is unchanged. -/
theorem createTransaction_parent_absent {σ : Type} (repo : TransactionRepositoryI σ)
    (s s1 : σ) (log : List Call) (t : Transaction) (p : Nat) (hp : t.ParentID = some p)
    (habsent : repo.GetByID p s = ((none, none), s1)) :
    CreateTransaction repo t s = ((false, some Error.ErrParentTransactionNotFound), s1) ∧
    CreateTransaction (recording repo) t (s, log)
      = ((false, some Error.ErrParentTransactionNotFound), (s1, log ++ [Call.GetByID p])) ∧
    (∀ (fuel : Nat) (db : DB), (repositories.GetByID p db).1 = (none, none) →
      (CreateTransaction (NewTransactionRepository fuel) t db).1
          = (false, some Error.ErrParentTransactionNotFound) ∧
      (CreateTransaction (NewTransactionRepository fuel) t db).2.rows = db.rows) := by
  refine ⟨?_, ?_, ?_⟩
  · simp [CreateTransaction, hp, habsent]
  · simp [CreateTransaction, hp, habsent, recording]
  · intro fuel db h
    have hr := repo_GetByID_rows p db
    rcases hg : repositories.GetByID p db with ⟨r, db1⟩
    rw [hg] at h hr
    simp only at h hr
    subst h
    simp [CreateTransaction, hp, NewTransactionRepository, hg, hr]

/-- Witness of C1: the case of the service test, candidate 1 with parent 2 on the
empty store. -/
theorem createTransaction_parent_absent_witness :
    (Transaction.mk 1 100 "purchase" (some 2)).ParentID = some 2 ∧
    (NewTransactionRepository 0).GetByID 2 (healthy []) = ((none, none), healthy []) ∧
    CreateTransaction (NewTransactionRepository 0) ⟨1, 100, "purchase", some 2⟩ (healthy [])
      = ((false, some Error.ErrParentTransactionNotFound), healthy []) ∧
    CreateTransaction (recording (NewTransactionRepository 0)) ⟨1, 100, "purchase", some 2⟩
        (healthy [], [])
      = ((false, some Error.ErrParentTransactionNotFound),
          (healthy [], [] ++ [Call.GetByID 2])) :=
  have h := createTransaction_parent_absent (NewTransactionRepository 0) (healthy [])
    (healthy []) [] ⟨1, 100, "purchase", some 2⟩ 2 rfl (by decide)
  ⟨rfl, by decide, h.1, h.2.1⟩

end creation

section healthyStore
open services

theorem find_id_none {rows : List Transaction} {id : Nat} (h : id ∉ rows.map (·.Id)) :
    rows.find? (fun t => t.Id = id) = none := by
  rw [List.find?_eq_none]
  intro t ht
  simp only [decide_eq_true_eq]
  intro he
  exact h (List.mem_map.2 ⟨t, ht, he⟩)

theorem find_id_some {rows : List Transaction} {id : Nat} (h : id ∈ rows.map (·.Id)) :
    ∃ u, rows.find? (fun t => t.Id = id) = some u ∧ u ∈ rows ∧ u.Id = id := by
  cases hf : rows.find? (fun t => t.Id = id) with
  | none =>
    rw [List.find?_eq_none] at hf
    obtain ⟨t, ht, he⟩ := List.mem_map.1 h
    exact absurd (by simpa using he) (hf t ht)
  | some u => exact ⟨u, rfl, List.mem_of_find?_eq_some hf, by simpa using List.find?_some hf⟩

theorem repo_GetByID_healthy_absent {rows : List Transaction} {id : Nat}
    (h : id ∉ rows.map (·.Id)) :
    repositories.GetByID id (healthy rows) = ((none, none), healthy rows) := by
  simp [repositories.GetByID, dbFirstByID, DB.nextFault, healthy, find_id_none h]

theorem repo_GetByID_healthy_present {rows : List Transaction} {id : Nat}
    (h : id ∈ rows.map (·.Id)) :
    ∃ u, u ∈ rows ∧ u.Id = id ∧
      repositories.GetByID id (healthy rows) = ((some u, none), healthy rows) := by
  obtain ⟨u, hf, hu, hid⟩ := find_id_some h
  exact ⟨u, hu, hid, by simp [repositories.GetByID, dbFirstByID, DB.nextFault, healthy, hf]⟩

theorem repo_Create_healthy (t : Transaction) (rows : List Transaction) :
    repositories.Create t (healthy rows) =
      if t.Id ∈ rows.map (·.Id) then (some Error.ErrTransactionAlreadyExist, healthy rows)
      else (none, healthy (t :: rows)) := by
  by_cases h : t.Id ∈ rows.map (·.Id)
  · have h2 : ∃ a ∈ rows, a.Id = t.Id := by simpa using h
    simp [repositories.Create, dbCreate, DB.nextFault, healthy, DB.ids, h2,
      DuplicateKeyViolationCode]
  · have h2 : ¬ ∃ a ∈ rows, a.Id = t.Id := by simpa using h
    simp [repositories.Create, dbCreate, DB.nextFault, healthy, DB.ids, h2]

end healthyStore

section creationLemmas
open services

theorem createTransaction_healthy (fuel : Nat) (t : Transaction) (rows : List Transaction) :
    CreateTransaction (NewTransactionRepository fuel) t (healthy rows) =
      if ∀ p, t.ParentID = some p → p ∈ rows.map (·.Id) then
        if t.Id ∈ rows.map (·.Id) then
          ((false, some Error.ErrTransactionAlreadyExist), healthy rows)
        else ((true, none), healthy (t :: rows))
      else ((false, some Error.ErrParentTransactionNotFound), healthy rows) := by
  cases hp : t.ParentID with
  | none =>
    simp only [CreateTransaction, hp, NewTransactionRepository, repo_Create_healthy]
    by_cases h : t.Id ∈ rows.map (·.Id) <;> simp [h]
  | some p =>
    by_cases hin : p ∈ rows.map (·.Id)
    · obtain ⟨u, _, _, hg⟩ := repo_GetByID_healthy_present hin
      have hall : ∀ q, some p = some q → q ∈ rows.map (·.Id) := by
        intro q hq; cases hq; exact hin
      simp only [CreateTransaction, hp, NewTransactionRepository, hg, repo_Create_healthy]
      rw [if_pos hall]
      by_cases h : t.Id ∈ rows.map (·.Id) <;> simp [h]
    · have hg := repo_GetByID_healthy_absent hin
      have hall : ¬ ∀ q, some p = some q → q ∈ rows.map (·.Id) := fun hq => hin (hq p rfl)
      simp only [CreateTransaction, hp, NewTransactionRepository, hg]
      rw [if_neg hall]

theorem repo_Create_cases (t : Transaction) (db : DB) :
    ((repositories.Create t db).1 = none ∧ (repositories.Create t db).2.rows = t :: db.rows ∧
        t.Id ∉ db.rows.map (·.Id)) ∨
    ((repositories.Create t db).1 ≠ none ∧ (repositories.Create t db).2.rows = db.rows) := by
  unfold repositories.Create dbCreate
  have h := nextFault_rows db
  rcases hf : db.nextFault with ⟨_ | e, db1⟩ <;> rw [hf] at h <;> simp only at h ⊢
  · by_cases hin : t.Id ∈ db1.ids
    · right
      simp [hin, DuplicateKeyViolationCode, h]
    · left
      simp only [if_neg hin, h, true_and]
      simpa [DB.ids, h] using hin
  · right
    cases e <;> simp [h]
    split <;> simp [h]

theorem repo_GetByID_found {id : Nat} {db db1 : DB} {u : Transaction}
    (h : repositories.GetByID id db = ((some u, none), db1)) : id ∈ db.rows.map (·.Id) := by
  unfold repositories.GetByID dbFirstByID at h
  have hr := nextFault_rows db
  rcases hf : db.nextFault with ⟨_ | e, db2⟩ <;> rw [hf] at h hr <;> simp only at h hr
  · cases hfind : db2.rows.find? (fun t => t.Id = id) with
    | none => rw [hfind] at h; simp at h
    | some v =>
      have hv := List.mem_of_find?_eq_some hfind
      have hid : v.Id = id := by simpa using List.find?_some hfind
      rw [hr] at hv
      exact List.mem_map.2 ⟨v, hv, hid⟩
  · split at h <;> simp at h

/-- The insert step of `CreateTransaction` (lines after the parent check). -/
theorem createTransaction_no_parent {σ : Type} (repo : TransactionRepositoryI σ)
    (t : Transaction) (s : σ) (hp : t.ParentID = none) :
    CreateTransaction repo t s =
      (((repo.Create t s).1.isNone, (repo.Create t s).1), (repo.Create t s).2) := by
  rcases hc : repo.Create t s with ⟨_ | e, s2⟩ <;> simp [CreateTransaction, hp, hc]

theorem createTransaction_lookup_error {σ : Type} (repo : TransactionRepositoryI σ)
    (t : Transaction) (s s1 : σ) (p : Nat) (r : Option Transaction) (e : Error)
    (hp : t.ParentID = some p) (hg : repo.GetByID p s = ((r, some e), s1)) :
    CreateTransaction repo t s = ((false, some e), s1) := by
  simp [CreateTransaction, hp, hg]

theorem createTransaction_parent_found {σ : Type} (repo : TransactionRepositoryI σ)
    (t : Transaction) (s s1 : σ) (p : Nat) (u : Transaction)
    (hp : t.ParentID = some p) (hg : repo.GetByID p s = ((some u, none), s1)) :
    CreateTransaction repo t s =
      (((repo.Create t s1).1.isNone, (repo.Create t s1).1), (repo.Create t s1).2) := by
  rcases hc : repo.Create t s1 with ⟨_ | e, s2⟩ <;> simp [CreateTransaction, hp, hg, hc]

theorem createTransaction_parent_missing {σ : Type} (repo : TransactionRepositoryI σ)
    (t : Transaction) (s s1 : σ) (p : Nat)
    (hp : t.ParentID = some p) (hg : repo.GetByID p s = ((none, none), s1)) :
    CreateTransaction repo t s = ((false, some Error.ErrParentTransactionNotFound), s1) := by
  simp [CreateTransaction, hp, hg]

theorem insert_step_rows (t : Transaction) (db db1 : DB) (h1 : db1.rows = db.rows)
    (res : (Bool × Option Error) × DB)
    (hres : res = (((repositories.Create t db1).1.isNone, (repositories.Create t db1).1),
      (repositories.Create t db1).2)) :
    (res.1.2 ≠ none ∧ res.1.1 = false ∧ res.2.rows = db.rows) ∨
    (res.1 = (true, none) ∧ res.2.rows = t :: db.rows ∧ t.Id ∉ db.rows.map (·.Id)) := by
  rcases repo_Create_cases t db1 with ⟨hn, hrows, hfresh⟩ | ⟨hn, hrows⟩
  · right
    rcases hc : repositories.Create t db1 with ⟨_ | e, s2⟩ <;> rw [hc] at hn hrows hres <;>
      simp only at hn hrows hres
    · subst hres
      exact ⟨rfl, by simpa [h1] using hrows, by simpa [h1] using hfresh⟩
    · simp at hn
  · left
    rcases hc : repositories.Create t db1 with ⟨_ | e, s2⟩ <;> rw [hc] at hn hrows hres <;>
      simp only at hn hrows hres
    · simp at hn
    · subst hres
      exact ⟨by simp, rfl, by simpa [h1] using hrows⟩

/-- Every call of `CreateTransaction` on the database either fails and leaves the table
as it was, or succeeds and adds exactly the candidate, whose id was free and whose
parent, if any, was present. -/
theorem createTransaction_rows (fuel : Nat) (t : Transaction) (db : DB)
    (res : (Bool × Option Error) × DB)
    (hres : CreateTransaction (NewTransactionRepository fuel) t db = res) :
    (res.1.2 ≠ none ∧ res.1.1 = false ∧ res.2.rows = db.rows) ∨
    (res.1 = (true, none) ∧ res.2.rows = t :: db.rows ∧
      t.Id ∉ db.rows.map (·.Id) ∧ ∀ p, t.ParentID = some p → p ∈ db.rows.map (·.Id)) := by
  cases hp : t.ParentID with
  | none =>
    rw [createTransaction_no_parent _ _ _ hp] at hres
    rcases insert_step_rows t db db rfl res hres.symm with h | ⟨h1, h2, h3⟩
    · exact Or.inl h
    · exact Or.inr ⟨h1, h2, h3, by intro p h; cases h⟩
  | some p =>
    have hr := repo_GetByID_rows p db
    rcases hg : repositories.GetByID p db with ⟨⟨r, e⟩, db1⟩
    rw [hg] at hr
    simp only at hr
    have hg2 : (NewTransactionRepository fuel).GetByID p db = ((r, e), db1) := hg
    cases e with
    | some err =>
      rw [createTransaction_lookup_error _ _ _ _ _ _ _ hp hg2] at hres
      subst hres
      exact Or.inl ⟨by simp, rfl, hr⟩
    | none =>
      cases r with
      | none =>
        rw [createTransaction_parent_missing _ _ _ _ _ hp hg2] at hres
        subst hres
        exact Or.inl ⟨by simp, rfl, hr⟩
      | some u =>
        rw [createTransaction_parent_found _ _ _ _ _ _ hp hg2] at hres
        rcases insert_step_rows t db db1 hr res hres.symm with h | ⟨h1, h2, h3⟩
        · exact Or.inl h
        · refine Or.inr ⟨h1, h2, h3, ?_⟩
          intro q hq
          cases hq
          exact repo_GetByID_found hg

end creationLemmas

section aggregationErrors

/-- C3: for an id that `GetByID` reports absent, `GetTransitiveSum` returns
`(0, ErrTransactionNotFound)` and the repository receives only the lookup, never the
aggregate query; on every store without that id this is the result, whatever the
iteration bound; and the controller answers it with status 400 and the error object
whose text is "Transaction does not exist for given transaction ID". -/
theorem getTransitiveSum_unknown_id {σ : Type} (repo : TransactionRepositoryI σ)
    (s s1 : σ) (log : List Call) (id : Nat)
    (habsent : repo.GetByID id s = ((none, none), s1)) :
    services.GetTransitiveSum repo id s = some ((0, some Error.ErrTransactionNotFound), s1) ∧
    services.GetTransitiveSum (recording repo) id (s, log)
      = some ((0, some Error.ErrTransactionNotFound), (s1, log ++ [Call.GetByID id])) ∧
    (∀ s2 : σ, services.GetTransitiveSum repo id s ≠ some ((0, none), s2)) ∧
    (∀ (fuel : Nat) (rows : List Transaction), id ∉ rows.map (·.Id) →
      services.GetTransitiveSum (NewTransactionRepository fuel) id (healthy rows)
        = some ((0, some Error.ErrTransactionNotFound), healthy rows)) ∧
    (∀ param : String, controllers.ParseUint param = some id →
      controllers.GetTransitiveSum repo param s
        = some ({ statusCode := 400
                  body := controllers.Body.errorResponse
                    "Transaction does not exist for given transaction ID" 400 }, s1)) := by
  have h1 : services.GetTransitiveSum repo id s = some ((0, some Error.ErrTransactionNotFound), s1) := by
    simp [services.GetTransitiveSum, habsent]
  refine ⟨h1, ?_, ?_, ?_, ?_⟩
  · simp [services.GetTransitiveSum, habsent, recording]
  · intro s2; rw [h1]; simp
  · intro fuel rows hid
    simp [services.GetTransitiveSum, NewTransactionRepository, repo_GetByID_healthy_absent hid]
  · intro param hparse
    have hne : param ≠ "" := by
      intro h
      rw [h] at hparse
      simp [controllers.ParseUint] at hparse
    simp [controllers.GetTransitiveSum, hne, hparse, h1, controllers.StatusBadRequest,
      controllers.respondWithError]

/-- Witness of C3: id 7 on the empty store. -/
theorem getTransitiveSum_unknown_id_witness :
    (NewTransactionRepository 0).GetByID 7 (healthy []) = ((none, none), healthy []) ∧
    services.GetTransitiveSum (NewTransactionRepository 0) 7 (healthy [])
      = some ((0, some Error.ErrTransactionNotFound), healthy []) ∧
    controllers.GetTransitiveSum (NewTransactionRepository 0) "7" (healthy [])
      = some ({ statusCode := 400
                body := controllers.Body.errorResponse
                  "Transaction does not exist for given transaction ID" 400 }, healthy []) :=
  have h := getTransitiveSum_unknown_id (NewTransactionRepository 0) (healthy [])
    (healthy []) [] 7 (by decide)
  ⟨by decide, h.1, h.2.2.2.2 "7" (by decide)⟩

end aggregationErrors

section creationClaims

/-- C4, as stated, fails: on a store holding id 1, a candidate with id 1 whose parent 99
is absent is refused with `ErrParentTransactionNotFound`, not with the duplicate-id
error. -/
theorem duplicate_id_counterexample :
    (1 : Nat) ∈ (healthy [⟨1, 100, "purchase", none⟩]).ids ∧
    services.CreateTransaction (NewTransactionRepository 0) ⟨1, 5, "refund", some 99⟩
        (healthy [⟨1, 100, "purchase", none⟩])
      = ((false, some Error.ErrParentTransactionNotFound),
          healthy [⟨1, 100, "purchase", none⟩]) ∧
    (services.CreateTransaction (NewTransactionRepository 0) ⟨1, 5, "refund", some 99⟩
        (healthy [⟨1, 100, "purchase", none⟩])).1.2
      ≠ some Error.ErrTransactionAlreadyExist := by
  with_unfolding_all decide

/-- C4, amended: on a store that already holds the candidate's id, `CreateTransaction`
fails and leaves the store as it was: with `ErrTransactionAlreadyExist` when the
candidate names no parent or a stored parent, and with `ErrParentTransactionNotFound`
when the parent it names is not stored. -/
theorem duplicate_id_rejected (fuel : Nat) (rows : List Transaction) (t : Transaction)
    (hdup : t.Id ∈ rows.map (·.Id)) :
    ((∀ p, t.ParentID = some p → p ∈ rows.map (·.Id)) →
      services.CreateTransaction (NewTransactionRepository fuel) t (healthy rows)
        = ((false, some Error.ErrTransactionAlreadyExist), healthy rows)) ∧
    ((∃ p, t.ParentID = some p ∧ p ∉ rows.map (·.Id)) →
      services.CreateTransaction (NewTransactionRepository fuel) t (healthy rows)
        = ((false, some Error.ErrParentTransactionNotFound), healthy rows)) := by
  rw [createTransaction_healthy]
  constructor
  · intro hpar
    rw [if_pos hpar, if_pos hdup]
  · rintro ⟨p, hp, hnot⟩
    rw [if_neg (fun hall => hnot (hall p hp))]

/-- Witness of C4 amended: re-creating id 1 of the example scenario. -/
theorem duplicate_id_rejected_witness :
    (Transaction.mk 1 7 "other" none).Id ∈ [Transaction.mk 1 100 "purchase" none].map (·.Id) ∧
    services.CreateTransaction (NewTransactionRepository 0) ⟨1, 7, "other", none⟩
        (healthy [⟨1, 100, "purchase", none⟩])
      = ((false, some Error.ErrTransactionAlreadyExist),
          healthy [⟨1, 100, "purchase", none⟩]) :=
  ⟨by decide,
    (duplicate_id_rejected 0 [⟨1, 100, "purchase", none⟩] ⟨1, 7, "other", none⟩
      (by decide)).1 (by intro p h; cases h)⟩

/-- C5: a call of `CreateTransaction` that returns an error (whichever: parent not
found, failed lookup, duplicate id, failed insert) returns `false` and leaves the table
as it was; the table changes only when the call returns `(true, nil)`, and then it is
the old table with exactly the candidate added. -/
theorem createTransaction_atomic (fuel : Nat) (db : DB) (t : Transaction) :
    ((services.CreateTransaction (NewTransactionRepository fuel) t db).1.2 ≠ none →
      (services.CreateTransaction (NewTransactionRepository fuel) t db).1.1 = false ∧
      (services.CreateTransaction (NewTransactionRepository fuel) t db).2.rows = db.rows) ∧
    ((services.CreateTransaction (NewTransactionRepository fuel) t db).2.rows ≠ db.rows →
      (services.CreateTransaction (NewTransactionRepository fuel) t db).1 = (true, none)) ∧
    ((services.CreateTransaction (NewTransactionRepository fuel) t db).1 = (true, none) →
      (services.CreateTransaction (NewTransactionRepository fuel) t db).2.rows
        = t :: db.rows) := by
  rcases createTransaction_rows fuel t db _ rfl with ⟨h1, h2, h3⟩ | ⟨h1, h2, _, _⟩
  · refine ⟨fun _ => ⟨h2, h3⟩, fun h => absurd h3 h, fun h => ?_⟩
    rw [h] at h1
    simp at h1
  · refine ⟨fun h => ?_, fun _ => h1, fun _ => h2⟩
    rw [h1] at h
    simp at h

/-- Witness of C5: with parent 1 stored, a lookup that the driver fails with "connection
refused" makes the call fail, and the table stays as it was. -/
theorem createTransaction_atomic_witness :
    (services.CreateTransaction (NewTransactionRepository 0) ⟨2, 50, "refund", some 1⟩
        ⟨[⟨1, 100, "purchase", none⟩], [some (Error.other "connection refused")]⟩).1.2 ≠ none ∧
    (services.CreateTransaction (NewTransactionRepository 0) ⟨2, 50, "refund", some 1⟩
        ⟨[⟨1, 100, "purchase", none⟩], [some (Error.other "connection refused")]⟩).1.1 = false ∧
    (services.CreateTransaction (NewTransactionRepository 0) ⟨2, 50, "refund", some 1⟩
        ⟨[⟨1, 100, "purchase", none⟩], [some (Error.other "connection refused")]⟩).2.rows
      = [⟨1, 100, "purchase", none⟩] :=
  have hne : (services.CreateTransaction (NewTransactionRepository 0) ⟨2, 50, "refund", some 1⟩
      ⟨[⟨1, 100, "purchase", none⟩], [some (Error.other "connection refused")]⟩).1.2 ≠ none := by
    decide
  ⟨hne, (createTransaction_atomic 0
    ⟨[⟨1, 100, "purchase", none⟩], [some (Error.other "connection refused")]⟩
    ⟨2, 50, "refund", some 1⟩).1 hne⟩

/-- C7, as stated, fails: on a store holding id 1, creating a transaction with parent 1
does not succeed when the candidate's own id is 1, already taken. -/
theorem parent_present_counterexample :
    (1 : Nat) ∈ (healthy [⟨1, 100, "purchase", none⟩]).ids ∧
    services.CreateTransaction (NewTransactionRepository 0) ⟨1, 50, "refund", some 1⟩
        (healthy [⟨1, 100, "purchase", none⟩])
      = ((false, some Error.ErrTransactionAlreadyExist),
          healthy [⟨1, 100, "purchase", none⟩]) := by
  with_unfolding_all decide

/-- C7, amended: on a store that holds a transaction with id `p` and does not hold the
candidate's id, creating a candidate whose parent is `p` returns `(true, nil)` and adds
the candidate. -/
theorem parent_present_create_succeeds (fuel : Nat) (rows : List Transaction)
    (t : Transaction) (p : Nat) (hparent : p ∈ rows.map (·.Id)) (hp : t.ParentID = some p)
    (hfresh : t.Id ∉ rows.map (·.Id)) :
    services.CreateTransaction (NewTransactionRepository fuel) t (healthy rows)
      = ((true, none), healthy (t :: rows)) := by
  rw [createTransaction_healthy]
  have hall : ∀ q, t.ParentID = some q → q ∈ rows.map (·.Id) := by
    intro q hq
    rw [hp] at hq
    cases hq
    exact hparent
  rw [if_pos hall, if_neg hfresh]

/-- Witness of C7 amended: the second step of the example scenario. -/
theorem parent_present_create_succeeds_witness :
    (1 : Nat) ∈ [Transaction.mk 1 100 "purchase" none].map (·.Id) ∧
    (Transaction.mk 2 50 "refund" (some 1)).ParentID = some 1 ∧
    (Transaction.mk 2 50 "refund" (some 1)).Id ∉ [Transaction.mk 1 100 "purchase" none].map (·.Id) ∧
    services.CreateTransaction (NewTransactionRepository 0) ⟨2, 50, "refund", some 1⟩
        (healthy [⟨1, 100, "purchase", none⟩])
      = ((true, none), healthy [⟨2, 50, "refund", some 1⟩, ⟨1, 100, "purchase", none⟩]) :=
  ⟨by decide, rfl, by decide,
    parent_present_create_succeeds 0 [⟨1, 100, "purchase", none⟩] ⟨2, 50, "refund", some 1⟩ 1
      (by decide) rfl (by decide)⟩

end creationClaims

section lookupByType

theorem foldl_append_ids (l : List Transaction) (init : List Nat) :
    l.foldl (fun transactionIDs transaction => transactionIDs ++ [transaction.Id]) init
      = init ++ l.map (·.Id) := by
  induction l generalizing init with
  | nil => simp
  | cons t l ih => simp [ih]

/-- C10: on every store and for every type label, `GetTransactionIDsByType` returns with
a nil error the ids of the stored transactions whose type equals the label, one entry
per matching transaction (so an id is listed exactly when a stored transaction with
that id has the label); when no transaction has the label the list is empty, still with
a nil error. The store is not changed. -/
theorem getTransactionIDsByType_exact (fuel : Nat) (rows : List Transaction)
    (label : String) :
    services.GetTransactionIDsByType (NewTransactionRepository fuel) label (healthy rows)
      = (((rows.filter (fun t => t.Type_ = label)).map (·.Id), none), healthy rows) ∧
    (∀ i, i ∈ (services.GetTransactionIDsByType (NewTransactionRepository fuel) label
          (healthy rows)).1.1 ↔ ∃ t ∈ rows, t.Id = i ∧ t.Type_ = label) ∧
    ((∀ t ∈ rows, t.Type_ ≠ label) →
      services.GetTransactionIDsByType (NewTransactionRepository fuel) label (healthy rows)
        = (([], none), healthy rows)) := by
  have h : services.GetTransactionIDsByType (NewTransactionRepository fuel) label (healthy rows)
      = (((rows.filter (fun t => t.Type_ = label)).map (·.Id), none), healthy rows) := by
    simp [services.GetTransactionIDsByType, NewTransactionRepository, repositories.GetByType,
      dbFindByType, DB.nextFault, healthy, foldl_append_ids]
  refine ⟨h, ?_, ?_⟩
  · intro i
    rw [h]
    simp only [List.mem_map, List.mem_filter, decide_eq_true_eq]
    constructor
    · rintro ⟨t, ⟨ht, hl⟩, hi⟩
      exact ⟨t, ht, hi, hl⟩
    · rintro ⟨t, ht, hi, hl⟩
      exact ⟨t, ⟨ht, hl⟩, hi⟩
  · intro hnone
    rw [h]
    have : rows.filter (fun t => t.Type_ = label) = [] := by
      rw [List.filter_eq_nil_iff]
      intro t ht
      simpa using hnone t ht
    rw [this]
    rfl

/-- Witness of C10: the label "refund" on the store of the example scenario, and a
label that no transaction carries. -/
theorem getTransactionIDsByType_exact_witness :
    services.GetTransactionIDsByType (NewTransactionRepository 0) "refund"
        (healthy [⟨3, 20, "refund", some 2⟩, ⟨2, 50, "refund", some 1⟩,
          ⟨1, 100, "purchase", none⟩])
      = (([3, 2], none), healthy [⟨3, 20, "refund", some 2⟩, ⟨2, 50, "refund", some 1⟩,
          ⟨1, 100, "purchase", none⟩]) ∧
    services.GetTransactionIDsByType (NewTransactionRepository 0) "salary"
        (healthy [⟨1, 100, "purchase", none⟩])
      = (([], none), healthy [⟨1, 100, "purchase", none⟩]) :=
  ⟨(getTransactionIDsByType_exact 0 [⟨3, 20, "refund", some 2⟩, ⟨2, 50, "refund", some 1⟩,
      ⟨1, 100, "purchase", none⟩] "refund").1,
    (getTransactionIDsByType_exact 0 [⟨1, 100, "purchase", none⟩] "salary").2.2
      (by decide)⟩

end lookupByType

section aggregation

theorem getTransitiveSum_healthy (fuel : Nat) (rows : List Transaction) (id : Nat)
    (hid : id ∈ rows.map (·.Id)) :
    services.GetTransitiveSum (NewTransactionRepository fuel) id (healthy rows) =
      (recursiveCTE fuel rows (cteBase rows id)).map
        (fun result => (sumOutcome (cteTotal id result), healthy rows)) := by
  obtain ⟨u, _, _, hg⟩ := repo_GetByID_healthy_present hid
  simp only [services.GetTransitiveSum, NewTransactionRepository, hg]
  simp only [repositories.GetTransitiveSum, dbTransitiveSumQuery, DB.nextFault, healthy]
  cases recursiveCTE fuel rows (cteBase rows id) with
  | none => rfl
  | some result =>
    simp only [Option.map_some']
    cases cteTotal id result <;> rfl

theorem cteBase_id {rows : List Transaction} {root : Nat} {w : CTERow}
    (h : w ∈ cteBase rows root) : w.1 = root := by
  simp only [cteBase, List.mem_map, List.mem_filter, decide_eq_true_eq] at h
  obtain ⟨t, ⟨_, ht⟩, rfl⟩ := h
  exact ht

theorem cteBase_ne_nil {rows : List Transaction} {root : Nat}
    (h : root ∈ rows.map (·.Id)) : cteBase rows root ≠ [] := by
  obtain ⟨t, ht, hid⟩ := List.mem_map.1 h
  intro hnil
  have : (t.Id, t.Amount) ∈ cteBase rows root := by
    simp only [cteBase, List.mem_map, List.mem_filter, decide_eq_true_eq]
    exact ⟨t, ⟨ht, hid⟩, rfl⟩
  rw [hnil] at this
  cases this

theorem cteStep_eq_nil {rows : List Transaction} {work : List CTERow}
    (h : ∀ t ∈ rows, ∀ w ∈ work, t.ParentID ≠ some w.1) : cteStep rows work = [] := by
  simp only [cteStep, List.flatMap_eq_nil_iff, List.map_eq_nil_iff, List.filter_eq_nil_iff,
    decide_eq_true_eq]
  exact h

theorem cteTotal_base (rows : List Transaction) (root : Nat) :
    cteTotal root (cteBase rows root) = Except.ok 0 := by
  have : (cteBase rows root).filter (fun r => r.1 ≠ root) = [] := by
    rw [List.filter_eq_nil_iff]
    intro w hw
    simp [cteBase_id hw]
  unfold cteTotal
  rw [this]
  rfl

/-- C9: on every store, for an existing transaction that no stored transaction names as
parent (its descendant set is empty), `GetTransitiveSum` returns the sum 0 with a nil
error, whatever the amounts are; two rounds of the recursive query suffice. -/
theorem getTransitiveSum_leaf (fuel : Nat) (rows : List Transaction) (id : Nat)
    (hfuel : 2 ≤ fuel) (hid : id ∈ rows.map (·.Id))
    (hleaf : ∀ t ∈ rows, t.ParentID ≠ some id) :
    services.GetTransitiveSum (NewTransactionRepository fuel) id (healthy rows)
      = some ((0, none), healthy rows) := by
  obtain ⟨k, rfl⟩ : ∃ k, fuel = k + 2 := ⟨fuel - 2, by omega⟩
  have hstep : cteStep rows (cteBase rows id) = [] :=
    cteStep_eq_nil (fun t ht w hw => by rw [cteBase_id hw]; exact hleaf t ht)
  rw [getTransitiveSum_healthy _ _ _ hid]
  simp [recursiveCTE, cteBase_ne_nil hid, hstep, cteTotal_base, sumOutcome]

/-- Witness of C9: transaction 3, the last of the example scenario. -/
theorem getTransitiveSum_leaf_witness :
    2 ≤ 2 ∧
    (3 : Nat) ∈ [Transaction.mk 3 20 "refund" (some 2), Transaction.mk 2 50 "refund" (some 1),
      Transaction.mk 1 100 "purchase" none].map (·.Id) ∧
    services.GetTransitiveSum (NewTransactionRepository 2) 3
        (healthy [⟨3, 20, "refund", some 2⟩, ⟨2, 50, "refund", some 1⟩,
          ⟨1, 100, "purchase", none⟩])
      = some ((0, none), healthy [⟨3, 20, "refund", some 2⟩, ⟨2, 50, "refund", some 1⟩,
          ⟨1, 100, "purchase", none⟩]) :=
  ⟨by decide, by decide,
    getTransitiveSum_leaf 2 [⟨3, 20, "refund", some 2⟩, ⟨2, 50, "refund", some 1⟩,
      ⟨1, 100, "purchase", none⟩] 3 (by decide) (by decide) (by decide)⟩

end aggregation

section ordered

theorem ordered_parent_mem {rows : List Transaction} (h : CreationOrdered rows)
    {t : Transaction} (ht : t ∈ rows) {p : Nat} (hp : t.ParentID = some p) :
    p ∈ rows.map (·.Id) := by
  induction rows with
  | nil => cases ht
  | cons t0 rows ih =>
    obtain ⟨_, hpar, hrest⟩ := h
    rw [List.map_cons]
    rcases List.mem_cons.1 ht with rfl | ht'
    · exact List.mem_cons_of_mem _ (hpar p hp)
    · exact List.mem_cons_of_mem _ (ih hrest ht')

theorem ordered_tail_parent {t0 : Transaction} {rows : List Transaction}
    (h : CreationOrdered (t0 :: rows)) {u : Transaction} (hu : u ∈ rows) {p : Nat}
    (hp : u.ParentID = some p) : p ∈ rows.map (·.Id) ∧ t0.Id ≠ p := by
  have hin := ordered_parent_mem h.2.2 hu hp
  exact ⟨hin, fun he => h.1 (he ▸ hin)⟩

theorem ordered_head_parent {t0 : Transaction} {rows : List Transaction}
    (h : CreationOrdered (t0 :: rows)) {p : Nat}
    (hp : t0.ParentID = some p) : p ∈ rows.map (·.Id) ∧ t0.Id ≠ p := by
  have hin := h.2.1 p hp
  exact ⟨hin, fun he => h.1 (he ▸ hin)⟩

theorem createTransaction_ordered (fuel : Nat) (t : Transaction) (db : DB)
    (h : CreationOrdered db.rows) :
    CreationOrdered (services.CreateTransaction (NewTransactionRepository fuel) t db).2.rows := by
  rcases createTransaction_rows fuel t db _ rfl with ⟨_, _, h3⟩ | ⟨_, h2, hfresh, hpar⟩
  · rw [h3]; exact h
  · rw [h2]; exact ⟨hfresh, hpar, h⟩

theorem createAll_ordered (fuel : Nat) (cs : List Transaction) (db : DB)
    (h : CreationOrdered db.rows) :
    CreationOrdered (createAll (NewTransactionRepository fuel) cs db).rows := by
  induction cs generalizing db with
  | nil => exact h
  | cons c cs ih =>
    simp only [createAll, List.foldl_cons]
    exact ih _ (createTransaction_ordered fuel c db h)

end ordered

section acyclicity

theorem parentChain_mono {rows : List Transaction} :
    ∀ (n : Nat) (t : Transaction) (ids : List Nat),
      parentChain n rows t = some ids → parentChain (n + 1) rows t = some ids := by
  intro n
  induction n with
  | zero => intro t ids h; simp [parentChain] at h
  | succ n ih =>
    intro t ids h
    rw [parentChain] at h ⊢
    cases hp : t.ParentID with
    | none => rw [hp] at h; exact h
    | some p =>
      rw [hp] at h
      simp only at h ⊢
      cases hf : rows.find? (fun u => u.Id = p) with
      | none => rw [hf] at h; simp at h
      | some u =>
        rw [hf] at h
        simp only [Option.map_eq_some'] at h ⊢
        obtain ⟨chain, hc, rfl⟩ := h
        exact ⟨chain, ih u chain hc, rfl⟩

theorem find_cons_tail {t0 : Transaction} {rows : List Transaction} {p : Nat}
    (hne : t0.Id ≠ p) :
    (t0 :: rows).find? (fun u => u.Id = p) = rows.find? (fun u => u.Id = p) := by
  simp [List.find?_cons, hne]

theorem parentChain_cons {t0 : Transaction} {rows : List Transaction}
    (h : CreationOrdered (t0 :: rows)) :
    ∀ (n : Nat) (u : Transaction), u ∈ rows →
      parentChain n (t0 :: rows) u = parentChain n rows u := by
  intro n
  induction n with
  | zero => intro u _; rfl
  | succ n ih =>
    intro u hu
    rw [parentChain, parentChain]
    cases hp : u.ParentID with
    | none => rfl
    | some p =>
      obtain ⟨hin, hne⟩ := ordered_tail_parent h hu hp
      simp only [find_cons_tail hne]
      obtain ⟨v, hf, hv, _⟩ := find_id_some hin
      rw [hf]
      simp only [ih v hv]

theorem parentChain_ordered {rows : List Transaction} (h : CreationOrdered rows) :
    ∀ t ∈ rows, ∃ ids, parentChain rows.length rows t = some ids ∧ ids.Nodup ∧
      ids.head? = some t.Id ∧ ∀ i ∈ ids, i ∈ rows.map (·.Id) := by
  induction rows with
  | nil => intro t ht; cases ht
  | cons t0 rows ih =>
    intro t ht
    rcases List.mem_cons.1 ht with rfl | ht'
    · rw [List.length_cons, parentChain]
      cases hp : t.ParentID with
      | none => exact ⟨[t.Id], rfl, by simp, rfl, by simp⟩
      | some p =>
        obtain ⟨hin, hne⟩ := ordered_head_parent h hp
        simp only [find_cons_tail hne]
        obtain ⟨v, hf, hv, _⟩ := find_id_some hin
        obtain ⟨ids, hc, hnd, _, hmem⟩ := ih h.2.2 v hv
        rw [hf]
        simp only [parentChain_cons h _ v hv, hc, Option.map_some']
        refine ⟨t.Id :: ids, rfl, ?_, rfl, ?_⟩
        · exact List.nodup_cons.2 ⟨fun hi => h.1 (hmem _ hi), hnd⟩
        · intro i hi
          rcases List.mem_cons.1 hi with rfl | hi'
          · simp
          · rw [List.map_cons]
            exact List.mem_cons_of_mem _ (hmem i hi')
    · obtain ⟨ids, hc, hnd, hhead, hmem⟩ := ih h.2.2 t ht'
      refine ⟨ids, ?_, hnd, hhead, ?_⟩
      · rw [List.length_cons, parentChain_cons h _ t ht']
        exact parentChain_mono _ _ _ hc
      · intro i hi
        rw [List.map_cons]
        exact List.mem_cons_of_mem _ (hmem i hi)

end acyclicity

section reaching

theorem reachesIn_succ_iff {rows : List Transaction} {root k : Nat} {t : Transaction} :
    reachesIn rows root (k + 1) t = true ↔
      ∃ v ∈ rows, t.ParentID = some v.Id ∧ reachesIn rows root k v = true := by
  rw [reachesIn]
  cases hp : t.ParentID with
  | none => simp
  | some p =>
    simp only [List.any_eq_true, Bool.and_eq_true, decide_eq_true_eq, Option.some.injEq]
    constructor
    · rintro ⟨v, hv, hid, hr⟩
      exact ⟨v, hv, hid.symm, hr⟩
    · rintro ⟨v, hv, hid, hr⟩
      exact ⟨v, hv, hid.symm, hr⟩

theorem reachesIn_cons {t0 : Transaction} {rows : List Transaction} {root : Nat}
    (h : CreationOrdered (t0 :: rows)) :
    ∀ (k : Nat) (u : Transaction), u ∈ rows →
      reachesIn (t0 :: rows) root k u = reachesIn rows root k u := by
  intro k
  induction k with
  | zero => intro u _; rfl
  | succ k ih =>
    intro u hu
    rw [Bool.eq_iff_iff, reachesIn_succ_iff, reachesIn_succ_iff]
    constructor
    · rintro ⟨v, hv, hp, hr⟩
      rcases List.mem_cons.1 hv with rfl | hv'
      · exact absurd rfl (ordered_tail_parent h hu hp).2
      · exact ⟨v, hv', hp, by rw [← ih v hv']; exact hr⟩
    · rintro ⟨v, hv, hp, hr⟩
      exact ⟨v, List.mem_cons_of_mem _ hv, hp, by rw [ih v hv]; exact hr⟩

theorem reachesIn_root_mem {rows : List Transaction} {root : Nat} :
    ∀ (k : Nat) (t : Transaction), t ∈ rows → reachesIn rows root k t = true →
      root ∈ rows.map (·.Id) := by
  intro k
  induction k with
  | zero =>
    intro t ht hr
    simp only [reachesIn, decide_eq_true_eq] at hr
    exact List.mem_map.2 ⟨t, ht, hr⟩
  | succ k ih =>
    intro t _ hr
    obtain ⟨v, hv, _, hrv⟩ := reachesIn_succ_iff.1 hr
    exact ih v hv hrv

theorem reachesIn_succ_ne_root {rows : List Transaction} {root : Nat}
    (h : CreationOrdered rows) :
    ∀ (k : Nat) (t : Transaction), t ∈ rows → reachesIn rows root (k + 1) t = true →
      t.Id ≠ root := by
  induction rows with
  | nil => intro k t ht; cases ht
  | cons t0 rows ih =>
    intro k t ht hr
    rcases List.mem_cons.1 ht with rfl | ht'
    · obtain ⟨v, hv, hp, hrv⟩ := reachesIn_succ_iff.1 hr
      rcases List.mem_cons.1 hv with rfl | hv'
      · exact absurd rfl (ordered_head_parent h hp).2
      · rw [reachesIn_cons h k v hv'] at hrv
        have hroot := reachesIn_root_mem k v hv' hrv
        exact fun he => h.1 (he ▸ hroot)
    · rw [reachesIn_cons h (k + 1) t ht'] at hr
      exact ih h.2.2 k t ht' hr

theorem descendant_mem {rows : List Transaction} {root : Nat} {t : Transaction}
    (h : Descendant rows root t) : t ∈ rows := by
  cases h with
  | child _ ht _ => exact ht
  | step _ _ _ ht _ => exact ht

theorem descendant_iff_reachesIn {rows : List Transaction} {root : Nat}
    (hroot : root ∈ rows.map (·.Id)) (t : Transaction) :
    Descendant rows root t ↔ t ∈ rows ∧ ∃ k, reachesIn rows root (k + 1) t = true := by
  constructor
  · intro hd
    induction hd with
    | child t ht hp =>
      obtain ⟨v, hv, hid⟩ := List.mem_map.1 hroot
      refine ⟨ht, 0, reachesIn_succ_iff.2 ⟨v, hv, ?_, ?_⟩⟩
      · rw [hp, hid]
      · simpa [reachesIn] using hid
    | step u t hu ht hp ih =>
      obtain ⟨_, k, hk⟩ := ih
      exact ⟨ht, k + 1, reachesIn_succ_iff.2 ⟨u, descendant_mem hu, hp, hk⟩⟩
  · rintro ⟨ht, k, hk⟩
    induction k generalizing t with
    | zero =>
      obtain ⟨v, _, hp, hrv⟩ := reachesIn_succ_iff.1 hk
      simp only [reachesIn, decide_eq_true_eq] at hrv
      exact Descendant.child t ht (by rw [hp, hrv])
    | succ k ih =>
      obtain ⟨v, hv, hp, hrv⟩ := reachesIn_succ_iff.1 hk
      exact Descendant.step v t (ih v hv hrv) ht hp

end reaching

section recursiveQuery

end recursiveQuery

section transitiveSum

end transitiveSum

section storeClaims

/-- C6: after any sequence of `CreateTransaction` calls from the empty store (failing
calls, self-parents and forward references included), following `parent_id` links from
any stored transaction reaches a transaction without parent within as many steps as
there are rows, the ids met are pairwise different, and no transaction is its own
descendant. -/
theorem parent_graph_acyclic (fuel : Nat) (cs : List Transaction) (fs : List (Option Error))
    (t : Transaction) (ht : t ∈ (createAll (NewTransactionRepository fuel) cs ⟨[], fs⟩).rows) :
    (∃ ids : List Nat,
      parentChain (createAll (NewTransactionRepository fuel) cs ⟨[], fs⟩).rows.length
        (createAll (NewTransactionRepository fuel) cs ⟨[], fs⟩).rows t = some ids ∧
      ids.Nodup ∧ ids.head? = some t.Id) ∧
    ¬ Descendant (createAll (NewTransactionRepository fuel) cs ⟨[], fs⟩).rows t.Id t := by
  have hord := createAll_ordered fuel cs ⟨[], fs⟩ trivial
  constructor
  · obtain ⟨ids, h1, h2, h3, _⟩ := parentChain_ordered hord t ht
    exact ⟨ids, h1, h2, h3⟩
  · intro hd
    have hroot : t.Id ∈ (createAll (NewTransactionRepository fuel) cs ⟨[], fs⟩).rows.map
        (·.Id) := List.mem_map.2 ⟨t, ht, rfl⟩
    obtain ⟨_, k, hk⟩ := (descendant_iff_reachesIn hroot t).1 hd
    exact reachesIn_succ_ne_root hord k t ht hk rfl

/-- Witness of C6: a sequence with a self-parent (2 naming 2), a forward reference (3
naming 4 before 4 exists), a duplicate and a failed statement; transaction 3 is stored
by the last call and its chain is 3, 4, 1. -/
theorem parent_graph_acyclic_witness :
    Transaction.mk 3 20 "c" (some 4) ∈ (createAll (NewTransactionRepository 0)
      [⟨1, 100, "a", none⟩, ⟨2, 50, "b", some 2⟩, ⟨3, 20, "c", some 4⟩, ⟨4, 5, "d", some 1⟩,
        ⟨1, 1, "e", none⟩, ⟨5, 1, "f", none⟩, ⟨3, 20, "c", some 4⟩]
      ⟨[], [none, none, none, none, none, none, some (Error.other "timeout")]⟩).rows ∧
    ((∃ ids : List Nat,
      parentChain (createAll (NewTransactionRepository 0)
          [⟨1, 100, "a", none⟩, ⟨2, 50, "b", some 2⟩, ⟨3, 20, "c", some 4⟩,
            ⟨4, 5, "d", some 1⟩, ⟨1, 1, "e", none⟩, ⟨5, 1, "f", none⟩,
            ⟨3, 20, "c", some 4⟩]
          ⟨[], [none, none, none, none, none, none, some (Error.other "timeout")]⟩).rows.length
        (createAll (NewTransactionRepository 0)
          [⟨1, 100, "a", none⟩, ⟨2, 50, "b", some 2⟩, ⟨3, 20, "c", some 4⟩,
            ⟨4, 5, "d", some 1⟩, ⟨1, 1, "e", none⟩, ⟨5, 1, "f", none⟩,
            ⟨3, 20, "c", some 4⟩]
          ⟨[], [none, none, none, none, none, none, some (Error.other "timeout")]⟩).rows
        ⟨3, 20, "c", some 4⟩ = some ids ∧
      ids.Nodup ∧ ids.head? = some (Transaction.mk 3 20 "c" (some 4)).Id) ∧
    ¬ Descendant (createAll (NewTransactionRepository 0)
          [⟨1, 100, "a", none⟩, ⟨2, 50, "b", some 2⟩, ⟨3, 20, "c", some 4⟩,
            ⟨4, 5, "d", some 1⟩, ⟨1, 1, "e", none⟩, ⟨5, 1, "f", none⟩,
            ⟨3, 20, "c", some 4⟩]
          ⟨[], [none, none, none, none, none, none, some (Error.other "timeout")]⟩).rows
        (Transaction.mk 3 20 "c" (some 4)).Id ⟨3, 20, "c", some 4⟩) :=
  ⟨by decide, parent_graph_acyclic 0 _ _ _ (by decide)⟩

end storeClaims


section chain

end chain

section chainClaim

end chainClaim

section serviceProtocol

/-- C14: when the candidate names a parent `p` and the lookup `GetByID p` returns an
error `e`, `CreateTransaction` returns `(false, e)` with that same `e`, the only call
the repository receives is the lookup (`Create` is not invoked), and on the database a
lookup that the driver fails with `e` gives `(false, e)` and leaves the table as it was. -/
theorem parent_lookup_failure_propagated {σ : Type} (repo : TransactionRepositoryI σ)
    (s s1 : σ) (log : List Call) (t : Transaction) (p : Nat) (r : Option Transaction)
    (e : Error) (hp : t.ParentID = some p) (hfail : repo.GetByID p s = ((r, some e), s1)) :
    services.CreateTransaction repo t s = ((false, some e), s1) ∧
    services.CreateTransaction (recording repo) t (s, log)
      = ((false, some e), (s1, log ++ [Call.GetByID p])) ∧
    (∀ (fuel : Nat) (rows : List Transaction) (fs : List (Option Error)),
      e ≠ Error.ErrRecordNotFound →
      services.CreateTransaction (NewTransactionRepository fuel) t ⟨rows, some e :: fs⟩
        = ((false, some e), ⟨rows, fs⟩)) := by
  refine ⟨createTransaction_lookup_error repo t s s1 p r e hp hfail, ?_, ?_⟩
  · exact createTransaction_lookup_error (recording repo) t (s, log)
      (s1, log ++ [Call.GetByID p]) p r e hp (by simp [recording, hfail])
  · intro fuel rows fs hne
    exact createTransaction_lookup_error (NewTransactionRepository fuel) t _ _ p none e hp
      (by simp [NewTransactionRepository, repositories.GetByID, dbFirstByID, DB.nextFault, hne])

/-- Witness of C14: the lookup of parent 1 fails with "connection refused". -/
theorem parent_lookup_failure_propagated_witness :
    (Transaction.mk 2 50 "refund" (some 1)).ParentID = some 1 ∧
    (NewTransactionRepository 0).GetByID 1
        ⟨[⟨1, 100, "purchase", none⟩], [some (Error.other "connection refused")]⟩
      = ((none, some (Error.other "connection refused")),
          ⟨[⟨1, 100, "purchase", none⟩], []⟩) ∧
    services.CreateTransaction (NewTransactionRepository 0) ⟨2, 50, "refund", some 1⟩
        ⟨[⟨1, 100, "purchase", none⟩], [some (Error.other "connection refused")]⟩
      = ((false, some (Error.other "connection refused")),
          ⟨[⟨1, 100, "purchase", none⟩], []⟩) ∧
    services.CreateTransaction (recording (NewTransactionRepository 0))
        ⟨2, 50, "refund", some 1⟩
        (⟨[⟨1, 100, "purchase", none⟩], [some (Error.other "connection refused")]⟩, [])
      = ((false, some (Error.other "connection refused")),
          (⟨[⟨1, 100, "purchase", none⟩], []⟩, [] ++ [Call.GetByID 1])) :=
  have h := parent_lookup_failure_propagated (NewTransactionRepository 0)
    ⟨[⟨1, 100, "purchase", none⟩], [some (Error.other "connection refused")]⟩
    ⟨[⟨1, 100, "purchase", none⟩], []⟩ [] ⟨2, 50, "refund", some 1⟩ 1 none
    (Error.other "connection refused") rfl (by decide)
  ⟨rfl, by decide, h.1, h.2.1⟩

/-- C16: the store calls of `CreateTransaction`. Without parent the repository
receives a single `Create` of the candidate and nothing else; with parent `p` it
receives `GetByID p` and then, only when the lookup returns a transaction and no error,
a single `Create` of the candidate. The candidate's own id is never looked up, and the
error returned, when `Create` is reached, is the one `Create` returns. -/
theorem createTransaction_store_calls {σ : Type} (repo : TransactionRepositoryI σ)
    (s : σ) (log : List Call) (t : Transaction) :
    (t.ParentID = none →
      services.CreateTransaction (recording repo) t (s, log)
        = (((repo.Create t s).1.isNone, (repo.Create t s).1),
            ((repo.Create t s).2, log ++ [Call.Create t]))) ∧
    (∀ (p : Nat) (u : Transaction) (s1 : σ), t.ParentID = some p →
      repo.GetByID p s = ((some u, none), s1) →
      services.CreateTransaction (recording repo) t (s, log)
        = (((repo.Create t s1).1.isNone, (repo.Create t s1).1),
            ((repo.Create t s1).2, log ++ [Call.GetByID p, Call.Create t]))) ∧
    (∀ (p : Nat) (r : Option Transaction) (e : Option Error) (s1 : σ), t.ParentID = some p →
      repo.GetByID p s = ((r, e), s1) → (r = none ∨ e ≠ none) →
      (services.CreateTransaction (recording repo) t (s, log)).2
        = (s1, log ++ [Call.GetByID p])) := by
  refine ⟨?_, ?_, ?_⟩
  · intro hp
    rw [createTransaction_no_parent _ _ _ hp]
    rfl
  · intro p u s1 hp hg
    rw [createTransaction_parent_found (recording repo) t (s, log)
      (s1, log ++ [Call.GetByID p]) p u hp (by simp [recording, hg])]
    simp [recording]
  · intro p r e s1 hp hg hor
    cases e with
    | some err =>
      rw [createTransaction_lookup_error (recording repo) t (s, log)
        (s1, log ++ [Call.GetByID p]) p r err hp (by simp [recording, hg])]
    | none =>
      rcases hor with hr | he
      · subst hr
        rw [createTransaction_parent_missing (recording repo) t (s, log)
          (s1, log ++ [Call.GetByID p]) p hp (by simp [recording, hg])]
      · exact absurd rfl he

/-- Witness of C16: creating 2 with parent 1 on a store that holds 1 and 2: the calls
are the lookup of 1 and one `Create`, whose error is the result. -/
theorem createTransaction_store_calls_witness :
    (Transaction.mk 2 50 "refund" (some 1)).ParentID = some 1 ∧
    (NewTransactionRepository 0).GetByID 1
        (healthy [⟨2, 5, "x", none⟩, ⟨1, 100, "purchase", none⟩])
      = ((some ⟨1, 100, "purchase", none⟩, none),
          healthy [⟨2, 5, "x", none⟩, ⟨1, 100, "purchase", none⟩]) ∧
    services.CreateTransaction (recording (NewTransactionRepository 0))
        ⟨2, 50, "refund", some 1⟩
        (healthy [⟨2, 5, "x", none⟩, ⟨1, 100, "purchase", none⟩], [])
      = ((false, some Error.ErrTransactionAlreadyExist),
          (healthy [⟨2, 5, "x", none⟩, ⟨1, 100, "purchase", none⟩],
            [Call.GetByID 1, Call.Create ⟨2, 50, "refund", some 1⟩])) :=
  ⟨rfl, by decide,
    (createTransaction_store_calls (NewTransactionRepository 0)
      (healthy [⟨2, 5, "x", none⟩, ⟨1, 100, "purchase", none⟩]) []
      ⟨2, 50, "refund", some 1⟩).2.1 1 ⟨1, 100, "purchase", none⟩
      (healthy [⟨2, 5, "x", none⟩, ⟨1, 100, "purchase", none⟩]) rfl (by decide)⟩

end serviceProtocol

section createHandler

open controllers

theorem mapIndex_validated (a ty : JSONValue) :
    mapIndex [("amount", a), ("type", ty)] "amount" = some a ∧
    mapIndex [("amount", a), ("type", ty)] "type" = some ty := by
  constructor <;> simp [mapIndex, List.find?]

theorem validateSchema_missing_amount {data : JSONMap}
    (ha : mapIndex data "amount" = none) :
    validateSchema data ["amount", "type"]
      = Except.error (respondWithError "Field 'amount' is missing" 400) := by
  simp [validateSchema, validateSchemaLoop, ha, StatusBadRequest]

theorem validateSchema_missing_type {data : JSONMap} {a : JSONValue}
    (ha : mapIndex data "amount" = some a) (ht : mapIndex data "type" = none) :
    validateSchema data ["amount", "type"]
      = Except.error (respondWithError "Field 'type' is missing" 400) := by
  simp [validateSchema, validateSchemaLoop, ha, ht, StatusBadRequest]

theorem validateSchema_ok {data : JSONMap} {a ty : JSONValue}
    (ha : mapIndex data "amount" = some a) (ht : mapIndex data "type" = some ty) :
    validateSchema data ["amount", "type"] = Except.ok [("amount", a), ("type", ty)] := by
  simp [validateSchema, validateSchemaLoop, ha, ht]

/-- A request that is refused before the body is looked at. -/
theorem create_bad_id {σ : Type} (svc : services.TransactionServiceI σ) (tid : String)
    (body : Option JSONValue) (s : σ) :
    (tid = "" → CreateTransaction svc tid body s
      = (respondWithError "Transaction ID is required" 400, s)) ∧
    (tid ≠ "" → ParseUint tid = none → CreateTransaction svc tid body s
      = (respondWithError "Invalid transaction ID format" 400, s)) := by
  constructor
  · intro h
    simp [CreateTransaction, h, StatusBadRequest]
  · intro h hp
    simp [CreateTransaction, h, hp, StatusBadRequest]

/-- A request with a good id whose body is refused before the field types are looked
at. -/
theorem create_bad_body {σ : Type} (svc : services.TransactionServiceI σ) (tid : String)
    (body : Option JSONValue) (s : σ) (id : Nat) (hid : ParseUint tid = some id) :
    (decodeBody body = none → CreateTransaction svc tid body s
      = (respondWithError "Error decoding request body" 400, s)) ∧
    (∀ data, decodeBody body = some data → mapIndex data "amount" = none →
      CreateTransaction svc tid body s
        = (respondWithError "Field 'amount' is missing" 400, s)) ∧
    (∀ data a, decodeBody body = some data → mapIndex data "amount" = some a →
      mapIndex data "type" = none →
      CreateTransaction svc tid body s
        = (respondWithError "Field 'type' is missing" 400, s)) := by
  have hne : tid ≠ "" := by
    intro h
    rw [h] at hid
    simp [ParseUint] at hid
  refine ⟨?_, ?_, ?_⟩
  · intro hb
    simp [CreateTransaction, hne, hid, hb, StatusBadRequest]
  · intro data hb ha
    simp [CreateTransaction, hne, hid, hb, validateSchema_missing_amount ha]
  · intro data a hb ha ht
    simp [CreateTransaction, hne, hid, hb, validateSchema_missing_type ha ht]

/-- A request with a good id and both fields present, refused for the type of a field. -/
theorem create_bad_field {σ : Type} (svc : services.TransactionServiceI σ) (tid : String)
    (body : Option JSONValue) (s : σ) (id : Nat) (data : JSONMap) (a ty : JSONValue)
    (hid : ParseUint tid = some id) (hb : decodeBody body = some data)
    (ha : mapIndex data "amount" = some a) (ht : mapIndex data "type" = some ty) :
    (a.isNumber = false → CreateTransaction svc tid body s
      = (respondWithError "Invalid amount format" 400, s)) ∧
    (a.isNumber = true → ty.isString = false → CreateTransaction svc tid body s
      = (respondWithError "Invalid type format" 400, s)) ∧
    (∀ v, a.isNumber = true → ty.isString = true → mapIndex data "parent_id" = some v →
      v.isNumber = false → CreateTransaction svc tid body s
      = (respondWithError "Invalid parent_id format" 400, s)) := by
  have hne : tid ≠ "" := by
    intro h
    rw [h] at hid
    simp [ParseUint] at hid
  obtain ⟨hva, hvt⟩ := mapIndex_validated a ty
  refine ⟨?_, ?_, ?_⟩
  · intro hna
    cases a <;> simp [JSONValue.isNumber] at hna <;>
      simp [CreateTransaction, hne, hid, hb, validateSchema_ok ha ht, hva, StatusBadRequest]
  · intro hna hnt
    cases a <;> simp [JSONValue.isNumber] at hna
    cases ty <;> simp [JSONValue.isString] at hnt <;>
      simp [CreateTransaction, hne, hid, hb, validateSchema_ok ha ht, hva, hvt,
        StatusBadRequest]
  · intro v hna hnt hpar hnv
    cases a <;> simp [JSONValue.isNumber] at hna
    cases ty <;> simp [JSONValue.isString] at hnt
    cases v <;> simp [JSONValue.isNumber] at hnv <;>
      simp [CreateTransaction, hne, hid, hb, validateSchema_ok ha ht, hva, hvt, hpar,
        StatusBadRequest]

/-- A request that passes every check: the service is called with the transaction built
from the request, and the answer is the response to its result. -/
theorem create_valid {σ : Type} (svc : services.TransactionServiceI σ) (tid : String)
    (body : Option JSONValue) (s : σ) (id : Nat) (data : JSONMap) (amount : ℚ)
    (ty : String) (hid : ParseUint tid = some id) (hb : decodeBody body = some data)
    (ha : mapIndex data "amount" = some (JSONValue.number amount))
    (ht : mapIndex data "type" = some (JSONValue.string ty)) :
    (mapIndex data "parent_id" = none →
      CreateTransaction svc tid body s
        = (createResponse (svc.CreateTransaction ⟨id, amount, ty, none⟩ s).1.1
            (svc.CreateTransaction ⟨id, amount, ty, none⟩ s).1.2,
          (svc.CreateTransaction ⟨id, amount, ty, none⟩ s).2)) ∧
    (∀ v, mapIndex data "parent_id" = some (JSONValue.number v) →
      CreateTransaction svc tid body s
        = (createResponse
            (svc.CreateTransaction ⟨id, amount, ty, some (uintOfFloat64 v)⟩ s).1.1
            (svc.CreateTransaction ⟨id, amount, ty, some (uintOfFloat64 v)⟩ s).1.2,
          (svc.CreateTransaction ⟨id, amount, ty, some (uintOfFloat64 v)⟩ s).2)) := by
  have hne : tid ≠ "" := by
    intro h
    rw [h] at hid
    simp [ParseUint] at hid
  obtain ⟨hva, hvt⟩ := mapIndex_validated (JSONValue.number amount) (JSONValue.string ty)
  constructor
  · intro hpar
    rcases hsvc : svc.CreateTransaction ⟨id, amount, ty, none⟩ s with ⟨⟨status, _ | err⟩, s1⟩
    · simp [CreateTransaction, hne, hid, hb, validateSchema_ok ha ht, hva, hvt, hpar, hsvc,
        createResponse, StatusCreated, getStatusMessage]
    · simp only [CreateTransaction, hne, hid, hb, validateSchema_ok ha ht, hva, hvt, hpar,
        hsvc, createResponse, if_false]
      split_ifs <;> simp [StatusBadRequest, StatusInternalServerError, respondWithError]
  · intro v hpar
    rcases hsvc : svc.CreateTransaction ⟨id, amount, ty, some (uintOfFloat64 v)⟩ s with
      ⟨⟨status, _ | err⟩, s1⟩
    · simp [CreateTransaction, hne, hid, hb, validateSchema_ok ha ht, hva, hvt, hpar, hsvc,
        createResponse, StatusCreated, getStatusMessage]
    · simp only [CreateTransaction, hne, hid, hb, validateSchema_ok ha ht, hva, hvt, hpar,
        hsvc, createResponse, if_false]
      split_ifs <;> simp [StatusBadRequest, StatusInternalServerError, respondWithError]

end createHandler

section createHandlerClaims

open controllers

/-- C11: for a create request that passes validation (id parses, amount is a number,
type is a string, parent_id absent or a number) the handler calls the service once,
with a transaction `t` that carries the id, amount and type of the request, and its
response follows from the result of that call: `(true, nil)` gives status 201 with
status "ok" (no error object), `ErrParentTransactionNotFound` gives status 400 with
error "Parent transaction does not exist", `ErrTransactionAlreadyExist` gives status 400
with error "transaction with the same ID already exists", and any other error gives
status 500 with error "Error creating transaction: " followed by its message. -/
theorem create_response_by_service_result {σ : Type} (svc : services.TransactionServiceI σ)
    (tid : String) (body : Option JSONValue) (s : σ) (log : List services.ServiceCall)
    (id : Nat) (data : JSONMap) (amount : ℚ) (ty : String)
    (hid : ParseUint tid = some id) (hb : decodeBody body = some data)
    (ha : mapIndex data "amount" = some (JSONValue.number amount))
    (ht : mapIndex data "type" = some (JSONValue.string ty))
    (hpar : mapIndex data "parent_id" = none ∨
      ∃ v, mapIndex data "parent_id" = some (JSONValue.number v)) :
    ∃ t : Transaction, t.Id = id ∧ t.Amount = amount ∧ t.Type_ = ty ∧
      (mapIndex data "parent_id" = none → t.ParentID = none) ∧
      (CreateTransaction (services.recordingService svc) tid body (s, log)).2
        = ((svc.CreateTransaction t s).2, log ++ [services.ServiceCall.CreateTransaction t]) ∧
      ((svc.CreateTransaction t s).1 = (true, none) →
        (CreateTransaction (services.recordingService svc) tid body (s, log)).1
          = { statusCode := 201, body := Body.status "ok" }) ∧
      ((svc.CreateTransaction t s).1.2 = some Error.ErrParentTransactionNotFound →
        (CreateTransaction (services.recordingService svc) tid body (s, log)).1
          = { statusCode := 400
              body := Body.errorResponse "Parent transaction does not exist" 400 }) ∧
      ((svc.CreateTransaction t s).1.2 = some Error.ErrTransactionAlreadyExist →
        (CreateTransaction (services.recordingService svc) tid body (s, log)).1
          = { statusCode := 400
              body := Body.errorResponse "transaction with the same ID already exists" 400 }) ∧
      (∀ e, (svc.CreateTransaction t s).1.2 = some e →
        e ≠ Error.ErrParentTransactionNotFound → e ≠ Error.ErrTransactionAlreadyExist →
        (CreateTransaction (services.recordingService svc) tid body (s, log)).1
          = { statusCode := 500
              body := Body.errorResponse ("Error creating transaction: " ++ e.message) 500 }) := by
  obtain ⟨h1, h2⟩ := create_valid (services.recordingService svc) tid body (s, log) id data
    amount ty hid hb ha ht
  have key : ∀ t : Transaction,
      CreateTransaction (services.recordingService svc) tid body (s, log)
        = (createResponse (svc.CreateTransaction t s).1.1 (svc.CreateTransaction t s).1.2,
            ((svc.CreateTransaction t s).2,
              log ++ [services.ServiceCall.CreateTransaction t])) →
      ((CreateTransaction (services.recordingService svc) tid body (s, log)).2
        = ((svc.CreateTransaction t s).2, log ++ [services.ServiceCall.CreateTransaction t]) ∧
      ((svc.CreateTransaction t s).1 = (true, none) →
        (CreateTransaction (services.recordingService svc) tid body (s, log)).1
          = { statusCode := 201, body := Body.status "ok" }) ∧
      ((svc.CreateTransaction t s).1.2 = some Error.ErrParentTransactionNotFound →
        (CreateTransaction (services.recordingService svc) tid body (s, log)).1
          = { statusCode := 400
              body := Body.errorResponse "Parent transaction does not exist" 400 }) ∧
      ((svc.CreateTransaction t s).1.2 = some Error.ErrTransactionAlreadyExist →
        (CreateTransaction (services.recordingService svc) tid body (s, log)).1
          = { statusCode := 400
              body := Body.errorResponse "transaction with the same ID already exists" 400 }) ∧
      (∀ e, (svc.CreateTransaction t s).1.2 = some e →
        e ≠ Error.ErrParentTransactionNotFound → e ≠ Error.ErrTransactionAlreadyExist →
        (CreateTransaction (services.recordingService svc) tid body (s, log)).1
          = { statusCode := 500
              body := Body.errorResponse ("Error creating transaction: " ++ e.message)
                500 })) := by
    intro t heq
    rw [heq]
    refine ⟨rfl, ?_, ?_, ?_, ?_⟩
    · intro hr
      simp [hr, createResponse]
    · intro hr
      simp [hr, createResponse]
    · intro hr
      simp [hr, createResponse]
    · intro e hr hn1 hn2
      simp [hr, createResponse, hn1, hn2]
  rcases hpar with hnone | ⟨v, hv⟩
  · exact ⟨⟨id, amount, ty, none⟩, rfl, rfl, rfl, fun _ => rfl, key _ (h1 hnone)⟩
  · refine ⟨⟨id, amount, ty, some (uintOfFloat64 v)⟩, rfl, rfl, rfl, ?_, key _ (h2 v hv)⟩
    intro hnone
    rw [hnone] at hv
    cases hv

/-- Witness of C11: the request of the controller test; the insert fails with "some
internal error" and the answer is status 500 with error "Error creating transaction:
some internal error". -/
theorem create_response_by_service_result_witness :
    ParseUint "1" = some 1 ∧
    mapIndex [("amount", JSONValue.number 100), ("type", JSONValue.string "purchase")]
      "parent_id" = none ∧
    (CreateTransaction
        (services.recordingService
          (services.MakeTransactionService (NewTransactionRepository 0))) "1"
        (some (JSONValue.object [("amount", JSONValue.number 100),
          ("type", JSONValue.string "purchase")]))
        (⟨[], [some (Error.other "some internal error")]⟩, [])).1
      = { statusCode := 500
          body := Body.errorResponse "Error creating transaction: some internal error" 500 } := by
  obtain ⟨t, h1, h2, h3, h4, _, _, _, _, hother⟩ :=
    create_response_by_service_result
      (services.MakeTransactionService (NewTransactionRepository 0)) "1"
      (some (JSONValue.object [("amount", JSONValue.number 100),
        ("type", JSONValue.string "purchase")]))
      ⟨[], [some (Error.other "some internal error")]⟩ [] 1
      [("amount", JSONValue.number 100), ("type", JSONValue.string "purchase")]
      100 "purchase" (by decide) rfl rfl rfl (Or.inl rfl)
  have ht : t = ⟨1, 100, "purchase", none⟩ := by
    cases t
    simp only at h1 h2 h3 h4
    rw [h1, h2, h3, h4 rfl]
  subst ht
  exact ⟨by decide, rfl, hother (Error.other "some internal error") (by decide) (by decide)
    (by decide)⟩

/-- C13 does not hold of the code: a create request whose type is the empty string, on
the empty store, is answered 201 with status "ok" and the transaction with the empty
type is stored. -/
theorem empty_type_is_accepted :
    CreateTransaction (services.MakeTransactionService (NewTransactionRepository 0)) "1"
        (some (JSONValue.object [("amount", JSONValue.number 100),
          ("type", JSONValue.string "")]))
        (healthy [])
      = (⟨201, Body.status "ok"⟩, healthy [⟨1, 100, "", none⟩]) := by
  decide

/-- C15: in a create request with a good id, a numeric amount and a string type, a
`parent_id` key whose value is not a number (a string, a boolean, null, an array or an
object) is answered with status 400 and the error object whose text is "Invalid
parent_id format", without any call of the service and with the store untouched;
without the key the service is called, once, with `ParentID = nil`. -/
theorem parent_id_format_checked {σ : Type} (svc : services.TransactionServiceI σ)
    (tid : String) (body : Option JSONValue) (s : σ) (log : List services.ServiceCall)
    (id : Nat) (data : JSONMap) (amount : ℚ) (ty : String)
    (hid : ParseUint tid = some id) (hb : decodeBody body = some data)
    (ha : mapIndex data "amount" = some (JSONValue.number amount))
    (ht : mapIndex data "type" = some (JSONValue.string ty)) :
    (∀ v, mapIndex data "parent_id" = some v → v.isNumber = false →
      CreateTransaction (services.recordingService svc) tid body (s, log)
        = ({ statusCode := 400, body := Body.errorResponse "Invalid parent_id format" 400 },
            (s, log))) ∧
    (mapIndex data "parent_id" = none →
      (CreateTransaction (services.recordingService svc) tid body (s, log)).2
        = ((svc.CreateTransaction ⟨id, amount, ty, none⟩ s).2,
            log ++ [services.ServiceCall.CreateTransaction ⟨id, amount, ty, none⟩])) ∧
    (∀ v : JSONValue, v.isNumber = false ↔
      (v = JSONValue.null ∨ (∃ b, v = JSONValue.bool b) ∨ (∃ x, v = JSONValue.string x) ∨
        (∃ l, v = JSONValue.array l) ∨ ∃ l, v = JSONValue.object l)) := by
  refine ⟨?_, ?_, ?_⟩
  · intro v hpar hv
    exact (create_bad_field (services.recordingService svc) tid body (s, log) id data _ _
      hid hb ha ht).2.2 v rfl rfl hpar hv
  · intro hpar
    rw [(create_valid (services.recordingService svc) tid body (s, log) id data amount ty
      hid hb ha ht).1 hpar]
    rfl
  · intro v
    cases v <;> simp [JSONValue.isNumber]

/-- Witness of C15: the request of the controller test, `parent_id` being the string
"invalid_parent_id". -/
theorem parent_id_format_checked_witness :
    ParseUint "123" = some 123 ∧
    CreateTransaction
        (services.recordingService
          (services.MakeTransactionService (NewTransactionRepository 0))) "123"
        (some (JSONValue.object [("amount", JSONValue.number 100),
          ("type", JSONValue.string "purchase"),
          ("parent_id", JSONValue.string "invalid_parent_id")]))
        (healthy [], [])
      = ({ statusCode := 400, body := Body.errorResponse "Invalid parent_id format" 400 },
          (healthy [], [])) :=
  ⟨by decide,
    (parent_id_format_checked (services.MakeTransactionService (NewTransactionRepository 0))
      "123"
      (some (JSONValue.object [("amount", JSONValue.number 100),
        ("type", JSONValue.string "purchase"),
        ("parent_id", JSONValue.string "invalid_parent_id")]))
      (healthy []) [] 123
      [("amount", JSONValue.number 100), ("type", JSONValue.string "purchase"),
        ("parent_id", JSONValue.string "invalid_parent_id")]
      100 "purchase" (by decide) rfl rfl rfl).1
      (JSONValue.string "invalid_parent_id") rfl rfl⟩

end createHandlerClaims

section validationOrder

open controllers

theorem parseUint_ne_empty {tid : String} {id : Nat} (hid : ParseUint tid = some id) :
    tid ≠ "" := by
  intro h
  rw [h] at hid
  simp [ParseUint] at hid

/-- C12: the create handler reports the first check that fails, in the order id
present, id parses, body decodes, amount present, type present, amount is a number,
type is a string, parent_id (if present) is a number: the answer has status 400 and is
the error object whose text is the message of that check, and neither the service is
called nor the store touched; when no check fails the service is called exactly once. -/
theorem create_reports_first_failure {σ : Type} (svc : services.TransactionServiceI σ)
    (tid : String) (body : Option JSONValue) (s : σ) (log : List services.ServiceCall) :
    (∀ msg, firstFailure tid body = some msg →
      CreateTransaction (services.recordingService svc) tid body (s, log)
        = ({ statusCode := 400, body := Body.errorResponse msg 400 }, (s, log))) ∧
    (firstFailure tid body = none →
      ∃ t, (CreateTransaction (services.recordingService svc) tid body (s, log)).2
        = ((svc.CreateTransaction t s).2, log ++ [services.ServiceCall.CreateTransaction t])) := by
  by_cases h0 : tid = ""
  · have hf : firstFailure tid body = some "Transaction ID is required" := by
      simp [firstFailure, createChecks, h0]
    rw [hf]
    refine ⟨?_, by simp⟩
    rintro msg ⟨rfl⟩
    exact (create_bad_id _ tid body _).1 h0
  cases hid : ParseUint tid with
  | none =>
    have hf : firstFailure tid body = some "Invalid transaction ID format" := by
      simp [firstFailure, createChecks, h0, hid]
    rw [hf]
    refine ⟨?_, by simp⟩
    rintro msg ⟨rfl⟩
    exact (create_bad_id _ tid body _).2 h0 hid
  | some id =>
    obtain ⟨hb1, hb2, hb3⟩ := create_bad_body (services.recordingService svc) tid body
      (s, log) id hid
    cases hb : decodeBody body with
    | none =>
      have hf : firstFailure tid body = some "Error decoding request body" := by
        simp [firstFailure, createChecks, h0, hid, hb]
      rw [hf]
      refine ⟨?_, by simp⟩
      rintro msg ⟨rfl⟩
      exact hb1 hb
    | some data =>
      cases ha : mapIndex data "amount" with
      | none =>
        have hf : firstFailure tid body = some "Field 'amount' is missing" := by
          simp [firstFailure, createChecks, bodyField, h0, hid, hb, ha]
        rw [hf]
        refine ⟨?_, by simp⟩
        rintro msg ⟨rfl⟩
        exact hb2 data hb ha
      | some a =>
        cases ht : mapIndex data "type" with
        | none =>
          have hf : firstFailure tid body = some "Field 'type' is missing" := by
            simp [firstFailure, createChecks, bodyField, h0, hid, hb, ha, ht]
          rw [hf]
          refine ⟨?_, by simp⟩
          rintro msg ⟨rfl⟩
          exact hb3 data a hb ha ht
        | some ty =>
          obtain ⟨hf1, hf2, hf3⟩ := create_bad_field (services.recordingService svc) tid
            body (s, log) id data a ty hid hb ha ht
          cases hna : a.isNumber with
          | false =>
            have hf : firstFailure tid body = some "Invalid amount format" := by
              simp [firstFailure, createChecks, bodyField, h0, hid, hb, ha, ht, hna]
            rw [hf]
            refine ⟨?_, by simp⟩
            rintro msg ⟨rfl⟩
            exact hf1 hna
          | true =>
            cases hnt : ty.isString with
            | false =>
              have hf : firstFailure tid body = some "Invalid type format" := by
                simp [firstFailure, createChecks, bodyField, h0, hid, hb, ha, ht, hna, hnt]
              rw [hf]
              refine ⟨?_, by simp⟩
              rintro msg ⟨rfl⟩
              exact hf2 hna hnt
            | true =>
              obtain ⟨amount, rfl⟩ : ∃ amount, a = JSONValue.number amount := by
                cases a <;> simp [JSONValue.isNumber] at hna
                exact ⟨_, rfl⟩
              obtain ⟨tyStr, rfl⟩ : ∃ tyStr, ty = JSONValue.string tyStr := by
                cases ty <;> simp [JSONValue.isString] at hnt
                exact ⟨_, rfl⟩
              obtain ⟨hv1, hv2⟩ := create_valid (services.recordingService svc) tid body
                (s, log) id data amount tyStr hid hb ha ht
              cases hpar : mapIndex data "parent_id" with
              | none =>
                have hf : firstFailure tid body = none := by
                  simp [firstFailure, createChecks, bodyField, h0, hid, hb, ha, ht, hna,
                    hnt, hpar]
                rw [hf]
                refine ⟨by simp, fun _ => ⟨⟨id, amount, tyStr, none⟩, ?_⟩⟩
                rw [hv1 hpar]
                rfl
              | some v =>
                cases hnv : v.isNumber with
                | false =>
                  have hf : firstFailure tid body = some "Invalid parent_id format" := by
                    simp [firstFailure, createChecks, bodyField, h0, hid, hb, ha, ht, hna,
                      hnt, hpar, hnv]
                  rw [hf]
                  refine ⟨?_, by simp⟩
                  rintro msg ⟨rfl⟩
                  exact hf3 v hna hnt hpar hnv
                | true =>
                  obtain ⟨f, rfl⟩ : ∃ f, v = JSONValue.number f := by
                    cases v <;> simp [JSONValue.isNumber] at hnv
                    exact ⟨_, rfl⟩
                  have hf : firstFailure tid body = none := by
                    simp [firstFailure, createChecks, bodyField, h0, hid, hb, ha, ht, hna,
                      hnt, hpar, hnv]
                  rw [hf]
                  refine ⟨by simp, fun _ =>
                    ⟨⟨id, amount, tyStr, some (uintOfFloat64 f)⟩, ?_⟩⟩
                  rw [hv2 f hpar]
                  rfl

end validationOrder

section validationOrderWitness

open controllers

/-- Witness of C12: a body with a non-numeric amount and no type is answered "Field
'type' is missing", and the service is not called. -/
theorem create_reports_first_failure_witness :
    firstFailure "1" (some (JSONValue.object [("amount", JSONValue.string "invalid_amount")]))
      = some "Field 'type' is missing" ∧
    CreateTransaction
        (services.recordingService
          (services.MakeTransactionService (NewTransactionRepository 0))) "1"
        (some (JSONValue.object [("amount", JSONValue.string "invalid_amount")]))
        (healthy [], [])
      = ({ statusCode := 400, body := Body.errorResponse "Field 'type' is missing" 400 },
          (healthy [], [])) :=
  ⟨by decide,
    (create_reports_first_failure
      (services.MakeTransactionService (NewTransactionRepository 0)) "1"
      (some (JSONValue.object [("amount", JSONValue.string "invalid_amount")]))
      (healthy []) []).1 "Field 'type' is missing" (by decide)⟩

end validationOrderWitness

section parentIdConversion

open controllers

theorem truncate_nonneg (v : ℚ) (h0 : 0 ≤ v) : truncate v = ⌊v⌋ := by
  have hnum : 0 ≤ v.num := Rat.num_nonneg.2 h0
  unfold truncate
  rw [if_pos hnum]
  exact (Rat.floor_def' v).symm

theorem uintOfFloat64_in_range (v : ℚ) (h0 : 0 ≤ v) (h1 : v < 2 ^ 64) :
    uintOfFloat64 v = ⌊v⌋.toNat := by
  have hnonneg : 0 ≤ ⌊v⌋ := Int.floor_nonneg.2 h0
  have hlt : ⌊v⌋ < 2 ^ 64 := by
    rw [Int.floor_lt]
    exact_mod_cast h1
  unfold uintOfFloat64
  rw [truncate_nonneg v h0, if_pos ⟨by omega, hlt⟩, Int.emod_eq_of_lt hnonneg hlt]

/-- C17, as stated, fails: the JSON number 9007199254740993 is non-negative and within
the unsigned range, but it is decoded to the nearest `float64`, 9007199254740992, and
the service is called with that value as `ParentID`, not with the number itself. -/
theorem parent_id_rounded_counterexample :
    (0 : ℚ) ≤ 9007199254740993 ∧ (9007199254740993 : ℚ) < 2 ^ 64 ∧
    ⌊(9007199254740993 : ℚ)⌋.toNat = 9007199254740993 ∧
    (CreateTransaction
        (services.recordingService
          (services.MakeTransactionService (NewTransactionRepository 0))) "2"
        (some (JSONValue.object [("amount", JSONValue.number 50),
          ("type", JSONValue.string "refund"),
          ("parent_id", decodeNumber 9007199254740993)]))
        (healthy [], [])).2.2
      = [services.ServiceCall.CreateTransaction ⟨2, 50, "refund", some 9007199254740992⟩] := by
  refine ⟨by norm_num, by norm_num, ?_, by decide!⟩
  rw [show (9007199254740993 : ℚ) = ((9007199254740993 : ℤ) : ℚ) by norm_num, Int.floor_intCast]
  rfl

/-- C17, amended: a `parent_id` that is a JSON number is decoded to the nearest
`float64` `v`; when `0 ≤ v < 2 ^ 64` the request is never refused for it, whether `v` is
integral or not: the handler calls the service, once, with `ParentID` equal to `v` with
its fraction discarded, and answers with the response to the result of that call. -/
theorem fractional_parent_id_truncated {σ : Type} (svc : services.TransactionServiceI σ)
    (tid : String) (body : Option JSONValue) (s : σ) (log : List services.ServiceCall)
    (id : Nat) (data : JSONMap) (amount : ℚ) (ty : String) (literal : ℚ)
    (hid : ParseUint tid = some id) (hb : decodeBody body = some data)
    (ha : mapIndex data "amount" = some (JSONValue.number amount))
    (ht : mapIndex data "type" = some (JSONValue.string ty))
    (hpar : mapIndex data "parent_id" = some (decodeNumber literal))
    (h0 : 0 ≤ nearestFloat64 literal) (h1 : nearestFloat64 literal < 2 ^ 64) :
    CreateTransaction (services.recordingService svc) tid body (s, log)
      = (createResponse
          (svc.CreateTransaction
            ⟨id, amount, ty, some ⌊nearestFloat64 literal⌋.toNat⟩ s).1.1
          (svc.CreateTransaction
            ⟨id, amount, ty, some ⌊nearestFloat64 literal⌋.toNat⟩ s).1.2,
        ((svc.CreateTransaction ⟨id, amount, ty, some ⌊nearestFloat64 literal⌋.toNat⟩ s).2,
          log ++ [services.ServiceCall.CreateTransaction
            ⟨id, amount, ty, some ⌊nearestFloat64 literal⌋.toNat⟩])) := by
  have hu := uintOfFloat64_in_range (nearestFloat64 literal) h0 h1
  rw [(create_valid (services.recordingService svc) tid body (s, log) id data amount ty
    hid hb ha ht).2 (nearestFloat64 literal) hpar, hu]
  rfl

/-- Witness of C17 amended: `parent_id` 1.9 on a store that holds transaction 1: the
nearest `float64` lies between 1 and 2, and transaction 2 is created as a child of 1
with the answer 201 "ok". -/
theorem fractional_parent_id_truncated_witness :
    ParseUint "2" = some 2 ∧
    nearestFloat64 (19 / 10) = 8556839292003942 / 4503599627370496 ∧
    (0 : ℚ) ≤ nearestFloat64 (19 / 10) ∧ nearestFloat64 (19 / 10) < 2 ^ 64 ∧
    ⌊nearestFloat64 (19 / 10)⌋.toNat = 1 ∧
    CreateTransaction
        (services.recordingService
          (services.MakeTransactionService (NewTransactionRepository 0))) "2"
        (some (JSONValue.object [("amount", JSONValue.number 50),
          ("type", JSONValue.string "refund"), ("parent_id", decodeNumber (19 / 10))]))
        (healthy [⟨1, 100, "purchase", none⟩], [])
      = ({ statusCode := 201, body := Body.status "ok" },
          (healthy [⟨2, 50, "refund", some 1⟩, ⟨1, 100, "purchase", none⟩],
            [services.ServiceCall.CreateTransaction ⟨2, 50, "refund", some 1⟩])) := by
  have hval : nearestFloat64 (19 / 10) = 8556839292003942 / 4503599627370496 := by decide!
  have h0 : (0 : ℚ) ≤ nearestFloat64 (19 / 10) := by rw [hval]; norm_num
  have h1 : nearestFloat64 (19 / 10) < 2 ^ 64 := by rw [hval]; norm_num
  have hfl : ⌊nearestFloat64 (19 / 10)⌋.toNat = 1 := by
    have : ⌊nearestFloat64 (19 / 10)⌋ = 1 := by
      rw [hval, Int.floor_eq_iff]
      constructor <;> norm_num
    rw [this]
    rfl
  have h := fractional_parent_id_truncated
    (services.MakeTransactionService (NewTransactionRepository 0)) "2"
    (some (JSONValue.object [("amount", JSONValue.number 50),
      ("type", JSONValue.string "refund"), ("parent_id", decodeNumber (19 / 10))]))
    (healthy [⟨1, 100, "purchase", none⟩]) [] 2
    [("amount", JSONValue.number 50), ("type", JSONValue.string "refund"),
      ("parent_id", decodeNumber (19 / 10))]
    50 "refund" (19 / 10) (by decide) rfl rfl rfl rfl h0 h1
  refine ⟨by decide, hval, h0, h1, hfl, ?_⟩
  rw [h, hfl]
  decide!

end parentIdConversion

end TransactionSystem
